import Mathlib

/-!
WSPR beacon firmware: register dispatch over the USB control endpoint.

A shallow embedding of `firmware/beacon.c`.  The firmware keeps its registers
in global variables (`PORTB`, `clk_outputs`, `freq_corr`), answers every
control request from the static `response` record and drives the Si5351 clock
synthesizer and the UART as side effects.  Here the globals are the fields of
`State`, and every call into the synthesizer driver or the UART is appended,
in program order, to the `calls` field of the state.

Machine integers are natural numbers (`uint8_t`, `uint16_t`, `uint32_t`) or
integers (`int16_t`); a truncation is written out wherever the C code stores
into a narrower type.  The target is an 8-bit AVR: `int` has 16 bits and
`long` has 32 bits.
-/

namespace Beacon

/-! ## Constants of `beacon.c` -/

def CTRL_GET_REGISTER : Nat := 0
def CTRL_SET_REGISTER : Nat := 1

def REG_LED : Nat := 0
def REG_FREQ_CORR : Nat := 1
def REG_CLK0_FREQ_0 : Nat := 8
def REG_CLK0_FREQ_1 : Nat := 9
def REG_CLK0_ENABLE : Nat := 10
def REG_CLK0_DRIVE : Nat := 11

def STATUS_OK : Nat := 0
def STATUS_ERROR : Nat := 1

/-! ## Constants of headers that `beacon.c` includes -/

/-- Modelled from the spec: the LED mirrors one output pin.  The name `PB5` comes
from the toolchain header `avr/io.h`, which is not part of the sources at hand;
there it is bit 5 of port B. -/
def PB5 : Nat := 5

/-- Modelled from the spec: `SI5351_CLK0` is declared in `si5351.h`, which is
not part of the sources at hand.  The spec indexes the one wired channel by 0. -/
def SI5351_CLK0 : Nat := 0

/-- Modelled from the spec: `SI5351_DRIVE_2MA` is declared in `si5351.h`, which
is not part of the sources at hand.  The drive levels are an enumeration of four
strengths; `beacon.c` line 176 prints level `v` as `(v + 1) * 2` mA, so the
2 mA level is 0. -/
def SI5351_DRIVE_2MA : Nat := 0

/-- Modelled from the spec: `SI5351_DRIVE_8MA` is declared in `si5351.h`, which
is not part of the sources at hand.  It is the largest of the four drive levels;
`beacon.c` line 176 prints level `v` as `(v + 1) * 2` mA, so the 8 mA level
is 3. -/
def SI5351_DRIVE_8MA : Nat := 3

/-! ## Data model -/

/-- The `response_t` record: two `uint16_t` fields. -/
structure response_t where
  value : Nat
  status : Nat
deriving DecidableEq, Repr

/-- The `sizeof(response)` of the source: two 16-bit fields, 4 bytes. -/
def sizeof_response : Nat := 4

/-- The `clk_output_t` record: `uint32_t frequency; uint8_t enabled; uint8_t drive`. -/
structure clk_output_t where
  frequency : Nat
  enabled : Nat
  drive : Nat
deriving DecidableEq, Repr

/-- The array `clk_output_t clk_outputs[3]`, one field per element. -/
structure clk_outputs_t where
  c0 : clk_output_t
  c1 : clk_output_t
  c2 : clk_output_t
deriving DecidableEq, Repr

/-- Modelled from the spec: the driver and the UART are declared in `si5351.h`
and `uart.h`, which are not part of the sources at hand.  The constructors are
the entry points that `beacon.c` calls, with the arguments in the order of the
call sites: frequency in Hz (`uint32_t`) and channel; channel and enable flag;
channel and drive level; correction (`int16_t`); text.  The call `si5351_init`
is made at start-up only and its two configuration constants are not recorded. -/
inductive Call where
  | si5351_init
  | si5351_set_freq (freq : Nat) (clk : Nat)
  | si5351_output_enable (clk : Nat) (enable : Nat)
  | si5351_drive_strength (clk : Nat) (drive : Nat)
  | si5351_set_correction (corr : Int)
  | uart_puts (s : String)
deriving DecidableEq, Repr

/-- Whether a call goes to the clock-synthesizer driver (and not to the UART). -/
def Call.is_driver : Call → Bool
  | .uart_puts _ => false
  | _ => true

/-- Modelled from the spec: `usbMsgPtr` is a variable of the USB driver
(`usbdrv.h`, not part of the sources at hand); the transport sends the returned
number of bytes from where it points.  Either it points at the static `response`
record or at something else. -/
inductive MsgPtr where
  | other
  | response
deriving DecidableEq, Repr

/-- The global variables that `usbFunctionSetup` reads or writes, and the
sequence of driver and UART calls made so far (oldest first). -/
structure State where
  PORTB : Nat
  clk_outputs : clk_outputs_t
  freq_corr : Int
  strbuf : String
  response : response_t
  usbMsgPtr : MsgPtr
  calls : List Call
deriving DecidableEq, Repr

/-- Modelled from the spec: `usbRequest_t` is declared in `usbdrv.h`, which is
not part of the sources at hand.  These are the fields that the dispatcher reads:
the request kind `bRequest` (a `uchar`), the 16-bit value `wValue.word` and the
16-bit address `wIndex.word`. -/
structure usbRequest_t where
  bRequest : Nat
  wValue : Nat
  wIndex : Nat
deriving DecidableEq, Repr

/-- The ranges that the C types give to the fields of a request. -/
def usbRequest_t.wf (rq : usbRequest_t) : Prop :=
  rq.bRequest < 256 ∧ rq.wValue < 65536 ∧ rq.wIndex < 65536

/-- The ranges that the C types give to the fields of the state. -/
def State.wf (s : State) : Prop :=
  s.PORTB < 256 ∧
  s.clk_outputs.c0.frequency < 2 ^ 32 ∧ s.clk_outputs.c0.enabled < 256 ∧
  s.clk_outputs.c0.drive < 256 ∧
  s.clk_outputs.c1.frequency < 2 ^ 32 ∧ s.clk_outputs.c1.enabled < 256 ∧
  s.clk_outputs.c1.drive < 256 ∧
  s.clk_outputs.c2.frequency < 2 ^ 32 ∧ s.clk_outputs.c2.enabled < 256 ∧
  s.clk_outputs.c2.drive < 256 ∧
  -32768 ≤ s.freq_corr ∧ s.freq_corr < 32768 ∧
  s.response.value < 65536 ∧ s.response.status < 65536

/-! ## Integer conversions of the C code -/

/-- The C operator `!!` on an unsigned value: 0 stays 0, everything else is 1. -/
def notnot (v : Nat) : Nat := if v = 0 then 0 else 1

/-- Conversion of a `uint16_t` to `int16_t` (two's complement, as gcc does). -/
def to_int16 (v : Nat) : Int :=
  if v % 65536 < 32768 then Int.ofNat (v % 65536) else Int.ofNat (v % 65536) - 65536

/-- Conversion of an `int16_t` to `uint16_t`: reduction modulo 2^16. -/
def to_uint16 (i : Int) : Nat := (i % 65536).toNat

/-- The text that `%ld` prints for a `uint32_t` argument: `long` has 32 bits,
so the argument is read as a signed 32-bit number. -/
def fmt_ld (f : Nat) : String :=
  if f % 2 ^ 32 < 2 ^ 31 then toString (f % 2 ^ 32)
  else "-" ++ toString (2 ^ 32 - f % 2 ^ 32)

/-- The text that `%d` prints for an `int` argument. -/
def fmt_d (i : Int) : String := toString i

/-! ## The LED helpers -/

def led_on (s : State) : State :=
  { s with PORTB := (s.PORTB ||| (1 <<< PB5)) % 256 }

/-- The mask `~(1<<PB5)` is a 16-bit `int`; the result is stored into the 8-bit port. -/
def led_off (s : State) : State :=
  { s with PORTB := (s.PORTB &&& (0xFFFF - (1 <<< PB5))) % 256 }

def led_value (s : State) : Nat :=
  notnot (s.PORTB &&& (1 <<< PB5))

/-- The parameter of `led_set` is a `bool`: the caller's value is converted to
`bool` (nonzero is true) before the branch. -/
def led_set (v : Nat) (s : State) : State :=
  if v ≠ 0 then led_on s else led_off s

/-! ## The dispatcher -/

/-- Assignment to `clk_outputs[0]`. -/
def set_clk0 (s : State) (c : clk_output_t) : State :=
  { s with clk_outputs := { s.clk_outputs with c0 := c } }

/-- Append one call to the trace. -/
def emit (s : State) (c : Call) : State :=
  { s with calls := s.calls ++ [c] }

/-- The pair `sprintf(strbuf, ...); uart_puts(strbuf);` with the formatted text. -/
def log_line (s : State) (text : String) : State :=
  emit { s with strbuf := text } (Call.uart_puts text)

/-- The text of the diagnostic after a frequency commit (line 149). -/
def line_frequency (f : Nat) : String :=
  "Setting frequency to " ++ fmt_ld f ++ " Hz\n"

/-- The text of the diagnostic after an enable write (lines 160 to 163). -/
def line_enable (value : Nat) : String :=
  if value ≠ 0 then "Output enabled\n" else "Output disabled\n"

/-- The text of the diagnostic after a drive write (lines 176 and 177):
`strength` is a `uint8_t`. -/
def line_drive (value : Nat) : String :=
  let strength := ((value + 1) * 2) % 256
  "Setting drive strength to " ++ fmt_d (Int.ofNat strength) ++ " mA\n"

/-- The text of the diagnostic after a correction write (line 187); the
division of C truncates towards zero. -/
def line_correction (corr : Int) : String :=
  "Setting frequency correction to " ++ fmt_d (Int.tdiv corr 10) ++ " ppm\n"

/-- The `switch (address)` of the `CTRL_GET_REGISTER` branch (lines 86 to 117). -/
def get_switch (address : Nat) (s : State) : State :=
  if address = REG_LED then
    { s with response := ⟨led_value s, STATUS_OK⟩ }
  else if address = REG_CLK0_FREQ_0 then
    { s with response := ⟨((s.clk_outputs.c0.frequency >>> 0) &&& 0xFFFF) % 65536, STATUS_OK⟩ }
  else if address = REG_CLK0_FREQ_1 then
    { s with response := ⟨((s.clk_outputs.c0.frequency >>> 16) &&& 0xFFFF) % 65536, STATUS_OK⟩ }
  else if address = REG_CLK0_ENABLE then
    { s with response := ⟨s.clk_outputs.c0.enabled, STATUS_OK⟩ }
  else if address = REG_CLK0_DRIVE then
    { s with response := ⟨s.clk_outputs.c0.drive, STATUS_OK⟩ }
  else if address = REG_FREQ_CORR then
    { s with response := ⟨to_uint16 s.freq_corr, STATUS_OK⟩ }
  else
    s

/-- The `switch (address)` of the `CTRL_SET_REGISTER` branch (lines 129 to 190). -/
def set_switch (address value : Nat) (s : State) : State :=
  if address = REG_LED then
    let s := led_set value s
    { s with response := ⟨notnot value, STATUS_OK⟩ }
  else if address = REG_CLK0_FREQ_0 then
    let f := s.clk_outputs.c0.frequency &&& 0xFFFF0000
    let f := (f ||| ((value <<< 0) % 2 ^ 32))
    let s := set_clk0 s { s.clk_outputs.c0 with frequency := f }
    { s with response := ⟨value, STATUS_OK⟩ }
  else if address = REG_CLK0_FREQ_1 then
    let f := s.clk_outputs.c0.frequency &&& 0x0000FFFF
    let f := (f ||| ((value <<< 16) % 2 ^ 32))
    let s := set_clk0 s { s.clk_outputs.c0 with frequency := f }
    let s := emit s (Call.si5351_set_freq s.clk_outputs.c0.frequency SI5351_CLK0)
    let s := { s with response := ⟨value, STATUS_OK⟩ }
    log_line s (line_frequency s.clk_outputs.c0.frequency)
  else if address = REG_CLK0_ENABLE then
    let s := set_clk0 s { s.clk_outputs.c0 with enabled := notnot value }
    let s := emit s (Call.si5351_output_enable SI5351_CLK0 (notnot value))
    let s := { s with response := ⟨notnot value, STATUS_OK⟩ }
    log_line s (line_enable value)
  else if address = REG_CLK0_DRIVE then
    if value > SI5351_DRIVE_8MA then
      s
    else
      let s := set_clk0 s { s.clk_outputs.c0 with drive := value % 256 }
      let s := emit s (Call.si5351_drive_strength SI5351_CLK0 value)
      let s := { s with response := ⟨value, STATUS_OK⟩ }
      log_line s (line_drive value)
  else if address = REG_FREQ_CORR then
    let s := { s with freq_corr := to_int16 value }
    let s := emit s (Call.si5351_set_correction s.freq_corr)
    let s := { s with response := ⟨to_uint16 s.freq_corr, STATUS_OK⟩ }
    log_line s (line_correction s.freq_corr)
  else
    s

/-- The function `usbFunctionSetup`: the new state and the returned length. -/
def usbFunctionSetup (rq : usbRequest_t) (s : State) : State × Nat :=
  if rq.bRequest = CTRL_GET_REGISTER then
    let address := rq.wIndex
    let s := { s with response := ⟨0, STATUS_ERROR⟩ }
    let s := get_switch address s
    let s := { s with usbMsgPtr := MsgPtr.response }
    (s, sizeof_response)
  else if rq.bRequest = CTRL_SET_REGISTER then
    let address := rq.wIndex
    let value := rq.wValue
    let s := { s with response := ⟨0, STATUS_ERROR⟩ }
    let s := set_switch address value s
    let s := { s with usbMsgPtr := MsgPtr.response }
    (s, sizeof_response)
  else
    (s, 0)

/-- A `CTRL_GET_REGISTER` request for an address. -/
def GET (address : Nat) : usbRequest_t :=
  { bRequest := CTRL_GET_REGISTER, wValue := 0, wIndex := address }

/-- A `CTRL_SET_REGISTER` request for an address and a value. -/
def SET (address value : Nat) : usbRequest_t :=
  { bRequest := CTRL_SET_REGISTER, wValue := value, wIndex := address }

/-- The state after a request. -/
def step (rq : usbRequest_t) (s : State) : State := (usbFunctionSetup rq s).1

/-- The length returned for a request. -/
def msg_len (rq : usbRequest_t) (s : State) : Nat := (usbFunctionSetup rq s).2

/-- The state of the globals when `main` starts: static storage is zeroed, the
port register has the given content, no call has been made. -/
def power_on (portb : Nat) : State :=
  { PORTB := portb
    clk_outputs := ⟨⟨0, 0, 0⟩, ⟨0, 0, 0⟩, ⟨0, 0, 0⟩⟩
    freq_corr := 0
    strbuf := ""
    response := ⟨0, 0⟩
    usbMsgPtr := MsgPtr.other
    calls := [] }

/-- The part of `main` before the poll loop, as far as it touches the state:
the banner on the UART, `si5351_init` and the default drive strength of
channel 0.  (`led_init` writes `DDRB` only; the UART, bus and USB set-up calls
do not touch the globals of `State`.) -/
def main_startup (s : State) : State :=
  let s := emit s (Call.uart_puts "WSPR Beacon by OE5TKM\n")
  let s := emit s Call.si5351_init
  emit s (Call.si5351_drive_strength SI5351_CLK0 SI5351_DRIVE_2MA)

/-! ## Sequences of requests and observations of the trace -/

/-- The state after a sequence of requests, handled one after the other by the
poll loop of `main`. -/
def run (rqs : List usbRequest_t) (s : State) : State :=
  rqs.foldl (fun st rq => step rq st) s

/-- The frequency argument of the most recent `si5351_set_freq` call of a
trace, if the trace has one. -/
def last_set_freq : List Call → Option Nat
  | [] => none
  | c :: cs =>
    match last_set_freq cs with
    | some f => some f
    | none =>
      match c with
      | Call.si5351_set_freq f _ => some f
      | _ => none

/-- The bound on the drive level and on the enabled flag that every request keeps. -/
def drive_enable_inv (s : State) : Prop :=
  s.clk_outputs.c0.drive ≤ SI5351_DRIVE_8MA ∧
    (s.clk_outputs.c0.enabled = 0 ∨ s.clk_outputs.c0.enabled = 1)

/-! ## Arithmetic of the bit operations -/

theorem testBit_mask_lo (i : Nat) : (0xFFFF : Nat).testBit i = decide (i < 16) :=
  Nat.testBit_two_pow_sub_one 16 i

theorem testBit_mask_hi (i : Nat) :
    (0xFFFF0000 : Nat).testBit i = (decide (16 ≤ i) && decide (i < 32)) := by
  have h : (0xFFFF0000 : Nat) = (2 ^ 16 - 1) <<< 16 := by decide
  rw [h, Nat.testBit_shiftLeft, Nat.testBit_two_pow_sub_one]
  by_cases h1 : 16 ≤ i <;> by_cases h2 : i < 32 <;> simp [h1, h2] <;> omega

theorem testBit_u16 {v : Nat} (hv : v < 65536) {i : Nat} (hi : 16 ≤ i) :
    v.testBit i = false := by
  apply Nat.testBit_lt_two_pow
  calc v < 2 ^ 16 := hv
    _ ≤ 2 ^ i := Nat.pow_le_pow_right (by decide) hi

theorem shl16_u16 {v : Nat} (hv : v < 65536) : (v <<< 16) % 2 ^ 32 = v <<< 16 := by
  rw [Nat.shiftLeft_eq]
  apply Nat.mod_eq_of_lt
  omega

theorem shl0_u16 {v : Nat} (hv : v < 65536) : (v <<< 0) % 2 ^ 32 = v := by
  rw [Nat.shiftLeft_zero]
  apply Nat.mod_eq_of_lt
  omega

/-- Writing the low half and then the high half composes the two halves. -/
theorem compose_halves (f : Nat) {L H : Nat} (hL : L < 65536) :
    (((f &&& 0xFFFF0000) ||| L) &&& 0x0000FFFF) ||| (H <<< 16) = (H <<< 16) ||| L := by
  apply Nat.eq_of_testBit_eq
  intro i
  simp only [Nat.testBit_or, Nat.testBit_and, testBit_mask_lo, testBit_mask_hi,
    Nat.testBit_shiftLeft]
  by_cases h : i < 16
  · have h1 : ¬ 16 ≤ i := by omega
    simp [h, h1]
  · have h1 : 16 ≤ i := by omega
    simp [h, h1, testBit_u16 hL h1]

theorem low_of_stored (f : Nat) {L : Nat} (hL : L < 65536) :
    ((((f &&& 0xFFFF0000) ||| L) >>> 0) &&& 0xFFFF) % 65536 = L := by
  have h : (((f &&& 0xFFFF0000) ||| L) >>> 0) &&& 0xFFFF = L := by
    apply Nat.eq_of_testBit_eq
    intro i
    simp only [Nat.shiftRight_zero, Nat.testBit_or, Nat.testBit_and, testBit_mask_lo,
      testBit_mask_hi]
    by_cases h : i < 16
    · have h1 : ¬ 16 ≤ i := by omega
      simp [h, h1]
    · have h1 : 16 ≤ i := by omega
      simp [h, testBit_u16 hL h1]
  rw [h]
  exact Nat.mod_eq_of_lt hL

theorem high_of_stored (f : Nat) {H : Nat} (hH : H < 65536) :
    ((((f &&& 0x0000FFFF) ||| (H <<< 16)) >>> 16) &&& 0xFFFF) % 65536 = H := by
  have h : (((f &&& 0x0000FFFF) ||| (H <<< 16)) >>> 16) &&& 0xFFFF = H := by
    apply Nat.eq_of_testBit_eq
    intro i
    simp only [Nat.testBit_shiftRight, Nat.testBit_or, Nat.testBit_and, testBit_mask_lo,
      Nat.testBit_shiftLeft]
    by_cases h : i < 16
    · have h1 : ¬ (16 + i < 16) := by omega
      simp [h, h1]
    · have h1 : 16 ≤ i := by omega
      simp [h, testBit_u16 hH h1]
  rw [h]
  exact Nat.mod_eq_of_lt hH

/-- The LED bit reads as set after `PORTB |= (1<<PB5)`. -/
theorem led_bit_after_on (p : Nat) : ((p ||| (1 <<< PB5)) % 256) &&& (1 <<< PB5) = 32 := by
  apply Nat.eq_of_testBit_eq
  intro i
  have h32 : (1 <<< PB5 : Nat) = 2 ^ 5 := by decide
  have h256 : (256 : Nat) = 2 ^ 8 := by decide
  rw [h32, h256]
  have h32b : (32 : Nat) = 2 ^ 5 := by decide
  rw [h32b]
  simp only [Nat.testBit_and, Nat.testBit_mod_two_pow, Nat.testBit_or, Nat.testBit_two_pow]
  by_cases h : 5 = i
  · subst h; simp
  · simp [h]

theorem led_bit_after_off (p : Nat) :
    ((p &&& (0xFFFF - (1 <<< PB5))) % 256) &&& (1 <<< PB5) = 0 := by
  apply Nat.eq_of_testBit_eq
  intro i
  have h32 : (1 <<< PB5 : Nat) = 2 ^ 5 := by decide
  have h256 : (256 : Nat) = 2 ^ 8 := by decide
  have hm : (0xFFFF - 2 ^ 5 : Nat) = ((2 ^ 10 - 1) <<< 6) ||| (2 ^ 5 - 1) := by decide
  rw [h32, h256, hm]
  simp only [Nat.testBit_and, Nat.testBit_mod_two_pow, Nat.testBit_or, Nat.testBit_two_pow,
    Nat.testBit_shiftLeft, Nat.testBit_two_pow_sub_one, Nat.zero_testBit]
  by_cases h : 5 = i
  · subst h; simp
  · simp [h]

theorem led_on_on (p : Nat) :
    (((p ||| (1 <<< PB5)) % 256) ||| (1 <<< PB5)) % 256 = (p ||| (1 <<< PB5)) % 256 := by
  apply Nat.eq_of_testBit_eq
  intro i
  have h32 : (1 <<< PB5 : Nat) = 2 ^ 5 := by decide
  have h256 : (256 : Nat) = 2 ^ 8 := by decide
  rw [h32, h256]
  simp only [Nat.testBit_and, Nat.testBit_mod_two_pow, Nat.testBit_or, Nat.testBit_two_pow]
  by_cases h : 5 = i
  · subst h; simp
  · simp [h]

theorem to_int16_of_lt {v : Nat} (hv : v < 65536) :
    to_int16 v = if v < 32768 then (v : Int) else (v : Int) - 65536 := by
  unfold to_int16
  rw [Nat.mod_eq_of_lt hv]
  rfl

theorem to_uint16_to_int16 {v : Nat} (hv : v < 65536) : to_uint16 (to_int16 v) = v := by
  rw [to_int16_of_lt hv]
  unfold to_uint16
  split <;> omega

/-! ## What each request does to the state -/

theorem usbFunctionSetup_get (rq : usbRequest_t) (s : State)
    (h : rq.bRequest = CTRL_GET_REGISTER) :
    usbFunctionSetup rq s =
      ({ get_switch rq.wIndex { s with response := ⟨0, STATUS_ERROR⟩ } with
          usbMsgPtr := MsgPtr.response }, sizeof_response) := by
  simp [usbFunctionSetup, h]

theorem usbFunctionSetup_set (rq : usbRequest_t) (s : State)
    (h : rq.bRequest = CTRL_SET_REGISTER) :
    usbFunctionSetup rq s =
      ({ set_switch rq.wIndex rq.wValue { s with response := ⟨0, STATUS_ERROR⟩ } with
          usbMsgPtr := MsgPtr.response }, sizeof_response) := by
  simp [usbFunctionSetup, h, CTRL_SET_REGISTER, CTRL_GET_REGISTER]

theorem step_GET (a : Nat) (s : State) :
    step (GET a) s =
      { get_switch a { s with response := ⟨0, STATUS_ERROR⟩ } with
          usbMsgPtr := MsgPtr.response } := rfl

theorem step_SET (a v : Nat) (s : State) :
    step (SET a v) s =
      { set_switch a v { s with response := ⟨0, STATUS_ERROR⟩ } with
          usbMsgPtr := MsgPtr.response } := rfl

theorem step_SET_freq0 (v : Nat) (s : State) :
    step (SET REG_CLK0_FREQ_0 v) s =
      { s with
        clk_outputs := { s.clk_outputs with c0 := { s.clk_outputs.c0 with
          frequency := (s.clk_outputs.c0.frequency &&& 0xFFFF0000) ||| ((v <<< 0) % 2 ^ 32) } }
        response := ⟨v, STATUS_OK⟩
        usbMsgPtr := MsgPtr.response } := rfl

theorem step_SET_freq1 (v : Nat) (s : State) :
    step (SET REG_CLK0_FREQ_1 v) s =
      { s with
        clk_outputs := { s.clk_outputs with c0 := { s.clk_outputs.c0 with
          frequency := (s.clk_outputs.c0.frequency &&& 0x0000FFFF) ||| ((v <<< 16) % 2 ^ 32) } }
        strbuf := line_frequency
          ((s.clk_outputs.c0.frequency &&& 0x0000FFFF) ||| ((v <<< 16) % 2 ^ 32))
        response := ⟨v, STATUS_OK⟩
        usbMsgPtr := MsgPtr.response
        calls := s.calls ++
          [Call.si5351_set_freq
            ((s.clk_outputs.c0.frequency &&& 0x0000FFFF) ||| ((v <<< 16) % 2 ^ 32)) SI5351_CLK0,
           Call.uart_puts (line_frequency
            ((s.clk_outputs.c0.frequency &&& 0x0000FFFF) ||| ((v <<< 16) % 2 ^ 32)))] } := by
  simp [step_SET, set_switch, REG_CLK0_FREQ_1, REG_LED, REG_CLK0_FREQ_0, set_clk0, emit, log_line]

theorem step_SET_enable (v : Nat) (s : State) :
    step (SET REG_CLK0_ENABLE v) s =
      { s with
        clk_outputs := { s.clk_outputs with c0 := { s.clk_outputs.c0 with
          enabled := notnot v } }
        strbuf := line_enable v
        response := ⟨notnot v, STATUS_OK⟩
        usbMsgPtr := MsgPtr.response
        calls := s.calls ++
          [Call.si5351_output_enable SI5351_CLK0 (notnot v), Call.uart_puts (line_enable v)] } := by
  simp [step_SET, set_switch, REG_CLK0_FREQ_1, REG_LED, REG_CLK0_FREQ_0, REG_CLK0_ENABLE,
    set_clk0, emit, log_line]

theorem step_SET_drive_ok (v : Nat) (s : State) (h : v ≤ SI5351_DRIVE_8MA) :
    step (SET REG_CLK0_DRIVE v) s =
      { s with
        clk_outputs := { s.clk_outputs with c0 := { s.clk_outputs.c0 with drive := v % 256 } }
        strbuf := line_drive v
        response := ⟨v, STATUS_OK⟩
        usbMsgPtr := MsgPtr.response
        calls := s.calls ++
          [Call.si5351_drive_strength SI5351_CLK0 v, Call.uart_puts (line_drive v)] } := by
  have h1 : ¬ v > SI5351_DRIVE_8MA := Nat.not_lt.mpr h
  simp [step_SET, set_switch, REG_CLK0_FREQ_1, REG_LED, REG_CLK0_FREQ_0, REG_CLK0_ENABLE,
    REG_CLK0_DRIVE, set_clk0, emit, log_line, h1]

theorem step_SET_drive_rejected (v : Nat) (s : State) (h : v > SI5351_DRIVE_8MA) :
    step (SET REG_CLK0_DRIVE v) s =
      { s with response := ⟨0, STATUS_ERROR⟩, usbMsgPtr := MsgPtr.response } := by
  simp [step_SET, set_switch, REG_CLK0_FREQ_1, REG_LED, REG_CLK0_FREQ_0, REG_CLK0_ENABLE,
    REG_CLK0_DRIVE, h]

theorem step_SET_corr (v : Nat) (s : State) :
    step (SET REG_FREQ_CORR v) s =
      { s with
        freq_corr := to_int16 v
        strbuf := line_correction (to_int16 v)
        response := ⟨to_uint16 (to_int16 v), STATUS_OK⟩
        usbMsgPtr := MsgPtr.response
        calls := s.calls ++
          [Call.si5351_set_correction (to_int16 v),
           Call.uart_puts (line_correction (to_int16 v))] } := by
  simp [step_SET, set_switch, REG_CLK0_FREQ_1, REG_LED, REG_CLK0_FREQ_0, REG_CLK0_ENABLE,
    REG_CLK0_DRIVE, REG_FREQ_CORR, emit, log_line]

theorem step_SET_led (v : Nat) (s : State) :
    step (SET REG_LED v) s =
      { s with
        PORTB := if v ≠ 0 then (s.PORTB ||| (1 <<< PB5)) % 256
                 else (s.PORTB &&& (0xFFFF - (1 <<< PB5))) % 256
        response := ⟨notnot v, STATUS_OK⟩
        usbMsgPtr := MsgPtr.response } := by
  by_cases h : v = 0 <;>
    simp [step_SET, set_switch, REG_LED, led_set, led_on, led_off, h]

/-! ## Ranges of the C types -/

theorem notnot_le_one (v : Nat) : notnot v ≤ 1 := by
  unfold notnot
  split <;> omega

theorem to_int16_range (v : Nat) : -32768 ≤ to_int16 v ∧ to_int16 v < 32768 := by
  unfold to_int16
  split <;> constructor <;> simp only [Int.ofNat_eq_coe] <;> omega

theorem to_uint16_lt (i : Int) : to_uint16 i < 65536 := by
  unfold to_uint16
  omega

theorem freq0_lt (f v : Nat) : (f &&& 0xFFFF0000) ||| ((v <<< 0) % 2 ^ 32) < 2 ^ 32 := by
  apply Nat.or_lt_two_pow
  · exact Nat.and_lt_two_pow f (by norm_num)
  · exact Nat.mod_lt _ (by norm_num)

theorem freq1_lt (f v : Nat) : (f &&& 0x0000FFFF) ||| ((v <<< 16) % 2 ^ 32) < 2 ^ 32 := by
  apply Nat.or_lt_two_pow
  · exact Nat.and_lt_two_pow f (by norm_num)
  · exact Nat.mod_lt _ (by norm_num)

theorem status_ok_le : STATUS_OK ≤ 1 := by decide

theorem status_error_le : STATUS_ERROR ≤ 1 := by decide

theorem zero_lt_u16 : (0 : Nat) < 65536 := by decide

/-- A GET request ignores its value field. -/
theorem get_ignores_value (v a : Nat) (s : State) :
    usbFunctionSetup ⟨CTRL_GET_REGISTER, v, a⟩ s = usbFunctionSetup (GET a) s := by
  rw [usbFunctionSetup_get _ s rfl, usbFunctionSetup_get (GET a) s rfl]
  rfl

theorem wf_of_frame {s t : State} (hs : s.wf)
    (hp : t.PORTB < 256)
    (hf : t.clk_outputs.c0.frequency < 2 ^ 32)
    (he : t.clk_outputs.c0.enabled < 256)
    (hd : t.clk_outputs.c0.drive < 256)
    (h1 : t.clk_outputs.c1 = s.clk_outputs.c1)
    (h2 : t.clk_outputs.c2 = s.clk_outputs.c2)
    (hc : -32768 ≤ t.freq_corr ∧ t.freq_corr < 32768)
    (hv : t.response.value < 65536)
    (hst : t.response.status ≤ 1) : t.wf := by
  obtain ⟨_, _, _, _, a5, a6, a7, a8, a9, a10, _, _, _, _⟩ := hs
  refine ⟨hp, hf, he, hd, ?_, ?_, ?_, ?_, ?_, ?_, hc.1, hc.2, hv, by omega⟩
  · rw [h1]; exact a5
  · rw [h1]; exact a6
  · rw [h1]; exact a7
  · rw [h2]; exact a8
  · rw [h2]; exact a9
  · rw [h2]; exact a10

theorem wf_GET (a : Nat) (s : State) (hs : s.wf) : (step (GET a) s).wf := by
  have hs0 := hs
  obtain ⟨h1, h2, h3, h4, _, _, _, _, _, _, h11, h12, _, _⟩ := hs
  have hl := notnot_le_one (s.PORTB &&& (1 <<< PB5))
  have hu := to_uint16_lt s.freq_corr
  rw [step_GET]
  simp only [get_switch]
  split_ifs <;>
    refine wf_of_frame hs0 h1 h2 h3 h4 rfl rfl ⟨h11, h12⟩ ?_ ?_ <;>
    simp only [led_value, STATUS_OK, STATUS_ERROR] <;>
    omega

theorem wf_SET (a v : Nat) (s : State) (hv : v < 65536) (hs : s.wf) :
    (step (SET a v) s).wf := by
  have hs0 := hs
  obtain ⟨h1, h2, h3, h4, _, _, _, _, _, _, h11, h12, _, _⟩ := hs
  have hn := notnot_le_one v
  by_cases a0 : a = REG_LED
  · subst a0
    rw [step_SET_led]
    refine wf_of_frame hs0 ?_ h2 h3 h4 rfl rfl ⟨h11, h12⟩ ?_ ?_
    · show (if v ≠ 0 then _ else _) < 256
      split <;> exact Nat.mod_lt _ (by decide)
    · show notnot v < 65536
      omega
    · exact status_ok_le
  by_cases a8 : a = REG_CLK0_FREQ_0
  · subst a8
    rw [step_SET_freq0]
    exact wf_of_frame hs0 h1 (freq0_lt _ _) h3 h4 rfl rfl ⟨h11, h12⟩ hv status_ok_le
  by_cases a9 : a = REG_CLK0_FREQ_1
  · subst a9
    rw [step_SET_freq1]
    exact wf_of_frame hs0 h1 (freq1_lt _ _) h3 h4 rfl rfl ⟨h11, h12⟩ hv status_ok_le
  by_cases a10 : a = REG_CLK0_ENABLE
  · subst a10
    rw [step_SET_enable]
    refine wf_of_frame hs0 h1 h2 ?_ h4 rfl rfl ⟨h11, h12⟩ ?_ status_ok_le
    · show notnot v < 256
      omega
    · show notnot v < 65536
      omega
  by_cases a11 : a = REG_CLK0_DRIVE
  · subst a11
    by_cases hd : v ≤ SI5351_DRIVE_8MA
    · rw [step_SET_drive_ok v s hd]
      exact wf_of_frame hs0 h1 h2 h3 (Nat.mod_lt _ (by decide)) rfl rfl ⟨h11, h12⟩ hv
        status_ok_le
    · rw [step_SET_drive_rejected v s (Nat.not_le.mp hd)]
      exact wf_of_frame hs0 h1 h2 h3 h4 rfl rfl ⟨h11, h12⟩ zero_lt_u16 status_error_le
  by_cases a1 : a = REG_FREQ_CORR
  · subst a1
    rw [step_SET_corr]
    exact wf_of_frame hs0 h1 h2 h3 h4 rfl rfl (to_int16_range v) (to_uint16_lt _) status_ok_le
  · rw [step_SET]
    simp only [set_switch, a0, a1, a8, a9, a10, a11, if_false]
    exact wf_of_frame hs0 h1 h2 h3 h4 rfl rfl ⟨h11, h12⟩ zero_lt_u16 status_error_le

/-- The ranges of the C types are kept by every request with in-range fields. -/
theorem step_wf (rq : usbRequest_t) (s : State) (hrq : rq.wf) (hs : s.wf) :
    (step rq s).wf := by
  obtain ⟨_, hv, _⟩ := hrq
  obtain ⟨k, v, a⟩ := rq
  by_cases h0 : k = CTRL_GET_REGISTER
  · subst h0
    have e : step ⟨CTRL_GET_REGISTER, v, a⟩ s = step (GET a) s := by
      unfold step
      rw [get_ignores_value]
    rw [e]
    exact wf_GET a s hs
  by_cases h1 : k = CTRL_SET_REGISTER
  · subst h1
    exact wf_SET a v s hv hs
  · have e : step ⟨k, v, a⟩ s = s := by
      simp [step, usbFunctionSetup, h0, h1]
    rw [e]
    exact hs

/-- The state that `main` reaches before its poll loop has all fields in range. -/
theorem main_startup_wf (portb : Nat) (h : portb < 256) : (main_startup (power_on portb)).wf := by
  refine ⟨h, ?_, ?_, ?_, ?_, ?_, ?_, ?_, ?_, ?_, ?_, ?_, ?_, ?_⟩ <;>
    simp [main_startup, power_on, emit]

/-! ## Case analysis on the address -/

theorem last_set_freq_append_two (cs : List Call) (f clk : Nat) (text : String) :
    last_set_freq (cs ++ [Call.si5351_set_freq f clk, Call.uart_puts text]) = some f := by
  induction cs with
  | nil => rfl
  | cons c cs ih => simp [last_set_freq, ih]

/-- Every address is one of the six register addresses or none of them. -/
theorem address_cases (a : Nat) :
    a = REG_LED ∨ a = REG_FREQ_CORR ∨ a = REG_CLK0_FREQ_0 ∨ a = REG_CLK0_FREQ_1 ∨
      a = REG_CLK0_ENABLE ∨ a = REG_CLK0_DRIVE ∨
      (a ≠ REG_LED ∧ a ≠ REG_FREQ_CORR ∧ a ≠ REG_CLK0_FREQ_0 ∧ a ≠ REG_CLK0_FREQ_1 ∧
        a ≠ REG_CLK0_ENABLE ∧ a ≠ REG_CLK0_DRIVE) := by
  by_cases h0 : a = REG_LED
  · exact Or.inl h0
  by_cases h1 : a = REG_FREQ_CORR
  · exact Or.inr (Or.inl h1)
  by_cases h8 : a = REG_CLK0_FREQ_0
  · exact Or.inr (Or.inr (Or.inl h8))
  by_cases h9 : a = REG_CLK0_FREQ_1
  · exact Or.inr (Or.inr (Or.inr (Or.inl h9)))
  by_cases h10 : a = REG_CLK0_ENABLE
  · exact Or.inr (Or.inr (Or.inr (Or.inr (Or.inl h10))))
  by_cases h11 : a = REG_CLK0_DRIVE
  · exact Or.inr (Or.inr (Or.inr (Or.inr (Or.inr (Or.inl h11)))))
  · exact Or.inr (Or.inr (Or.inr (Or.inr (Or.inr (Or.inr ⟨h0, h1, h8, h9, h10, h11⟩)))))

theorem step_SET_unknown (a v : Nat) (s : State)
    (h : a ≠ REG_LED ∧ a ≠ REG_FREQ_CORR ∧ a ≠ REG_CLK0_FREQ_0 ∧ a ≠ REG_CLK0_FREQ_1 ∧
      a ≠ REG_CLK0_ENABLE ∧ a ≠ REG_CLK0_DRIVE) :
    step (SET a v) s =
      { s with response := ⟨0, STATUS_ERROR⟩, usbMsgPtr := MsgPtr.response } := by
  obtain ⟨h0, h1, h8, h9, h10, h11⟩ := h
  rw [step_SET]
  simp only [set_switch, h0, h1, h8, h9, h10, h11, if_false]

theorem step_GET_unknown (a : Nat) (s : State)
    (h : a ≠ REG_LED ∧ a ≠ REG_FREQ_CORR ∧ a ≠ REG_CLK0_FREQ_0 ∧ a ≠ REG_CLK0_FREQ_1 ∧
      a ≠ REG_CLK0_ENABLE ∧ a ≠ REG_CLK0_DRIVE) :
    step (GET a) s =
      { s with response := ⟨0, STATUS_ERROR⟩, usbMsgPtr := MsgPtr.response } := by
  obtain ⟨h0, h1, h8, h9, h10, h11⟩ := h
  rw [step_GET]
  simp only [get_switch, h0, h1, h8, h9, h10, h11, if_false]

/-- A GET request writes the response record and the reply pointer only. -/
theorem step_GET_frame (a : Nat) (s : State) :
    step (GET a) s =
      { s with response := (step (GET a) s).response, usbMsgPtr := MsgPtr.response } := by
  rw [step_GET]
  simp only [get_switch]
  split_ifs <;> rfl

theorem step_GET_response (a : Nat) (s : State) :
    (step (GET a) s).response =
      if a = REG_LED then ⟨led_value s, STATUS_OK⟩
      else if a = REG_CLK0_FREQ_0 then
        ⟨((s.clk_outputs.c0.frequency >>> 0) &&& 0xFFFF) % 65536, STATUS_OK⟩
      else if a = REG_CLK0_FREQ_1 then
        ⟨((s.clk_outputs.c0.frequency >>> 16) &&& 0xFFFF) % 65536, STATUS_OK⟩
      else if a = REG_CLK0_ENABLE then ⟨s.clk_outputs.c0.enabled, STATUS_OK⟩
      else if a = REG_CLK0_DRIVE then ⟨s.clk_outputs.c0.drive, STATUS_OK⟩
      else if a = REG_FREQ_CORR then ⟨to_uint16 s.freq_corr, STATUS_OK⟩
      else ⟨0, STATUS_ERROR⟩ := by
  rw [step_GET]
  simp only [get_switch]
  split_ifs <;> rfl

theorem step_SET_response (a v : Nat) (s : State) :
    (step (SET a v) s).response =
      if a = REG_LED then ⟨notnot v, STATUS_OK⟩
      else if a = REG_CLK0_FREQ_0 then ⟨v, STATUS_OK⟩
      else if a = REG_CLK0_FREQ_1 then ⟨v, STATUS_OK⟩
      else if a = REG_CLK0_ENABLE then ⟨notnot v, STATUS_OK⟩
      else if a = REG_CLK0_DRIVE then
        (if v > SI5351_DRIVE_8MA then ⟨0, STATUS_ERROR⟩ else ⟨v, STATUS_OK⟩)
      else if a = REG_FREQ_CORR then ⟨to_uint16 (to_int16 v), STATUS_OK⟩
      else ⟨0, STATUS_ERROR⟩ := by
  rcases address_cases a with rfl | rfl | rfl | rfl | rfl | rfl | h
  · rw [step_SET_led]; rfl
  · rw [step_SET_corr]; rfl
  · rw [step_SET_freq0]; rfl
  · rw [step_SET_freq1]; rfl
  · rw [step_SET_enable]; rfl
  · by_cases hd : v ≤ SI5351_DRIVE_8MA
    · rw [step_SET_drive_ok v s hd]
      have h1 : ¬ v > SI5351_DRIVE_8MA := Nat.not_lt.mpr hd
      simp [REG_CLK0_DRIVE, REG_LED, REG_CLK0_FREQ_0, REG_CLK0_FREQ_1, REG_CLK0_ENABLE, h1]
    · rw [step_SET_drive_rejected v s (Nat.not_le.mp hd)]
      simp [REG_CLK0_DRIVE, REG_LED, REG_CLK0_FREQ_0, REG_CLK0_FREQ_1, REG_CLK0_ENABLE,
        Nat.not_le.mp hd]
  · rw [step_SET_unknown a v s h]
    obtain ⟨h0, h1, h8, h9, h10, h11⟩ := h
    simp only [h0, h1, h8, h9, h10, h11, if_false]

/-- The registers after a SET request, field by field. -/
theorem step_SET_fields (a v : Nat) (s : State) :
    (step (SET a v) s).PORTB =
        (if a = REG_LED then
          (if v ≠ 0 then (s.PORTB ||| (1 <<< PB5)) % 256
           else (s.PORTB &&& (0xFFFF - (1 <<< PB5))) % 256)
         else s.PORTB) ∧
      (step (SET a v) s).clk_outputs.c0.frequency =
        (if a = REG_CLK0_FREQ_0 then
          (s.clk_outputs.c0.frequency &&& 0xFFFF0000) ||| ((v <<< 0) % 2 ^ 32)
         else if a = REG_CLK0_FREQ_1 then
          (s.clk_outputs.c0.frequency &&& 0x0000FFFF) ||| ((v <<< 16) % 2 ^ 32)
         else s.clk_outputs.c0.frequency) ∧
      (step (SET a v) s).clk_outputs.c0.enabled =
        (if a = REG_CLK0_ENABLE then notnot v else s.clk_outputs.c0.enabled) ∧
      (step (SET a v) s).clk_outputs.c0.drive =
        (if a = REG_CLK0_DRIVE ∧ v ≤ SI5351_DRIVE_8MA then v % 256
         else s.clk_outputs.c0.drive) ∧
      (step (SET a v) s).clk_outputs.c1 = s.clk_outputs.c1 ∧
      (step (SET a v) s).clk_outputs.c2 = s.clk_outputs.c2 ∧
      (step (SET a v) s).freq_corr =
        (if a = REG_FREQ_CORR then to_int16 v else s.freq_corr) := by
  rcases address_cases a with rfl | rfl | rfl | rfl | rfl | rfl | h
  · rw [step_SET_led]
    simp [REG_LED, REG_FREQ_CORR, REG_CLK0_FREQ_0, REG_CLK0_FREQ_1, REG_CLK0_ENABLE,
      REG_CLK0_DRIVE]
  · rw [step_SET_corr]
    simp [REG_LED, REG_FREQ_CORR, REG_CLK0_FREQ_0, REG_CLK0_FREQ_1, REG_CLK0_ENABLE,
      REG_CLK0_DRIVE]
  · rw [step_SET_freq0]
    simp [REG_LED, REG_FREQ_CORR, REG_CLK0_FREQ_0, REG_CLK0_FREQ_1, REG_CLK0_ENABLE,
      REG_CLK0_DRIVE]
  · rw [step_SET_freq1]
    simp [REG_LED, REG_FREQ_CORR, REG_CLK0_FREQ_0, REG_CLK0_FREQ_1, REG_CLK0_ENABLE,
      REG_CLK0_DRIVE]
  · rw [step_SET_enable]
    simp [REG_LED, REG_FREQ_CORR, REG_CLK0_FREQ_0, REG_CLK0_FREQ_1, REG_CLK0_ENABLE,
      REG_CLK0_DRIVE]
  · by_cases hd : v ≤ SI5351_DRIVE_8MA
    · rw [step_SET_drive_ok v s hd]
      simp [REG_LED, REG_FREQ_CORR, REG_CLK0_FREQ_0, REG_CLK0_FREQ_1, REG_CLK0_ENABLE,
        REG_CLK0_DRIVE, hd]
    · rw [step_SET_drive_rejected v s (Nat.not_le.mp hd)]
      simp [REG_LED, REG_FREQ_CORR, REG_CLK0_FREQ_0, REG_CLK0_FREQ_1, REG_CLK0_ENABLE,
        REG_CLK0_DRIVE, hd]
  · rw [step_SET_unknown a v s h]
    obtain ⟨h0, h1, h8, h9, h10, h11⟩ := h
    simp [h0, h1, h8, h9, h10, h11]

/-- The calls of a SET request are appended to the trace. -/
theorem step_SET_calls (a v : Nat) (s : State) :
    ∃ cs, (step (SET a v) s).calls = s.calls ++ cs := by
  rcases address_cases a with rfl | rfl | rfl | rfl | rfl | rfl | h
  · exact ⟨[], by rw [step_SET_led]; simp⟩
  · exact ⟨_, by rw [step_SET_corr]⟩
  · exact ⟨[], by rw [step_SET_freq0]; simp⟩
  · exact ⟨_, by rw [step_SET_freq1]⟩
  · exact ⟨_, by rw [step_SET_enable]⟩
  · by_cases hd : v ≤ SI5351_DRIVE_8MA
    · exact ⟨_, by rw [step_SET_drive_ok v s hd]⟩
    · exact ⟨[], by rw [step_SET_drive_rejected v s (Nat.not_le.mp hd)]; simp⟩
  · exact ⟨[], by rw [step_SET_unknown a v s h]; simp⟩

theorem led_off_off (p : Nat) :
    (((p &&& (0xFFFF - (1 <<< PB5))) % 256) &&& (0xFFFF - (1 <<< PB5))) % 256
      = (p &&& (0xFFFF - (1 <<< PB5))) % 256 := by
  apply Nat.eq_of_testBit_eq
  intro i
  have h256 : (256 : Nat) = 2 ^ 8 := by decide
  rw [h256]
  simp only [Nat.testBit_and, Nat.testBit_mod_two_pow]
  cases decide (i < 8) <;> cases p.testBit i <;>
    cases (0xFFFF - (1 <<< PB5) : Nat).testBit i <;> rfl

/-- Writing the same low half twice stores what writing it once stores. -/
theorem low_twice (f x : Nat) :
    (((f &&& 0xFFFF0000) ||| x) &&& 0xFFFF0000) ||| x = (f &&& 0xFFFF0000) ||| x := by
  apply Nat.eq_of_testBit_eq
  intro i
  simp only [Nat.testBit_or, Nat.testBit_and]
  cases f.testBit i <;> cases x.testBit i <;> cases (0xFFFF0000 : Nat).testBit i <;> rfl

theorem high_twice (f x : Nat) :
    (((f &&& 0x0000FFFF) ||| x) &&& 0x0000FFFF) ||| x = (f &&& 0x0000FFFF) ||| x := by
  apply Nat.eq_of_testBit_eq
  intro i
  simp only [Nat.testBit_or, Nat.testBit_and]
  cases f.testBit i <;> cases x.testBit i <;> cases (0x0000FFFF : Nat).testBit i <;> rfl

/-- Writing the high half and then the low half composes the two halves. -/
theorem compose_halves_rev (f : Nat) {L H : Nat} (hL : L < 65536) (hH : H < 65536) :
    (((f &&& 0x0000FFFF) ||| (H <<< 16)) &&& 0xFFFF0000) ||| L = (H <<< 16) ||| L := by
  apply Nat.eq_of_testBit_eq
  intro i
  simp only [Nat.testBit_or, Nat.testBit_and, testBit_mask_lo, testBit_mask_hi,
    Nat.testBit_shiftLeft]
  by_cases h : i < 16
  · have h1 : ¬ 16 ≤ i := by omega
    simp [h, h1]
  · have h1 : 16 ≤ i := by omega
    by_cases h2 : i < 32
    · simp [h, h1, h2]
    · have h3 : H.testBit (i - 16) = false := testBit_u16 hH (by omega)
      simp [h, h1, h2, h3, testBit_u16 hL h1]

theorem testBit_of_lt_two_pow {x n i : Nat} (hx : x < 2 ^ n) (hi : n ≤ i) :
    x.testBit i = false := by
  apply Nat.testBit_lt_two_pow
  calc x < 2 ^ n := hx
    _ ≤ 2 ^ i := Nat.pow_le_pow_right (by decide) hi

theorem portb_other_bits_on {p : Nat} (hp : p < 256) {i : Nat} (hi : i ≠ PB5) :
    ((p ||| (1 <<< PB5)) % 256).testBit i = p.testBit i := by
  have h32 : (1 <<< PB5 : Nat) = 2 ^ 5 := by decide
  have h256 : (256 : Nat) = 2 ^ 8 := by decide
  have h5 : ¬ (5 = i) := fun h => hi (by rw [← h]; rfl)
  rw [h32, h256]
  simp only [Nat.testBit_mod_two_pow, Nat.testBit_or, Nat.testBit_two_pow]
  by_cases h8 : i < 8
  · simp [h8, h5]
  · have hp8 : p < 2 ^ 8 := hp
    have hz : p.testBit i = false := testBit_of_lt_two_pow hp8 (by omega)
    simp [h8, hz]

theorem portb_other_bits_off {p : Nat} (hp : p < 256) {i : Nat} (hi : i ≠ PB5) :
    ((p &&& (0xFFFF - (1 <<< PB5))) % 256).testBit i = p.testBit i := by
  have h256 : (256 : Nat) = 2 ^ 8 := by decide
  have hm : (0xFFFF - (1 <<< PB5) : Nat) = ((2 ^ 10 - 1) <<< 6) ||| (2 ^ 5 - 1) := by decide
  have h5 : i ≠ 5 := hi
  rw [h256, hm]
  simp only [Nat.testBit_and, Nat.testBit_mod_two_pow, Nat.testBit_or,
    Nat.testBit_shiftLeft, Nat.testBit_two_pow_sub_one]
  by_cases h8 : i < 8
  · by_cases h6 : i < 5
    · simp [h8, h6]
    · have h7 : 6 ≤ i := by omega
      have h9 : i - 6 < 10 := by omega
      simp [h8, h7, h9]
  · have hp8 : p < 2 ^ 8 := hp
    have hz : p.testBit i = false := testBit_of_lt_two_pow hp8 (by omega)
    simp [h8, hz]

theorem high_bits_kept {f v : Nat} (hf : f < 2 ^ 32) (hv : v < 65536) :
    ((f &&& 0xFFFF0000) ||| ((v <<< 0) % 2 ^ 32)) >>> 16 = f >>> 16 := by
  rw [shl0_u16 hv]
  apply Nat.eq_of_testBit_eq
  intro i
  simp only [Nat.testBit_shiftRight, Nat.testBit_or, Nat.testBit_and, testBit_mask_hi]
  have h1 : 16 ≤ 16 + i := by omega
  rw [testBit_u16 hv h1]
  by_cases h2 : 16 + i < 32
  · simp [h2]
  · have hz : f.testBit (16 + i) = false := testBit_of_lt_two_pow hf (by omega)
    simp [hz]

theorem low_bits_kept (f v : Nat) :
    ((f &&& 0x0000FFFF) ||| ((v <<< 16) % 2 ^ 32)) &&& 0xFFFF = f &&& 0xFFFF := by
  apply Nat.eq_of_testBit_eq
  intro i
  simp only [Nat.testBit_or, Nat.testBit_and, testBit_mask_lo, Nat.testBit_mod_two_pow,
    Nat.testBit_shiftLeft]
  by_cases h : i < 16
  · have h1 : ¬ 16 ≤ i := by omega
    simp [h, h1]
  · simp [h]

theorem low_mask_eq_mod (x : Nat) : x &&& 0xFFFF = x % 65536 :=
  Nat.and_pow_two_sub_one_eq_mod x 16

theorem drive_enable_inv_step (rq : usbRequest_t) (s : State) (h : drive_enable_inv s) :
    drive_enable_inv (step rq s) := by
  obtain ⟨k, v, a⟩ := rq
  by_cases h0 : k = CTRL_GET_REGISTER
  · subst h0
    have e : step ⟨CTRL_GET_REGISTER, v, a⟩ s = step (GET a) s := by
      unfold step
      rw [get_ignores_value]
    rw [e, step_GET_frame]
    exact h
  by_cases h1 : k = CTRL_SET_REGISTER
  · subst h1
    obtain ⟨_, _, e3, e4, _, _, _⟩ := step_SET_fields a v s
    have e : step ⟨CTRL_SET_REGISTER, v, a⟩ s = step (SET a v) s := rfl
    rw [e]
    obtain ⟨hd, he⟩ := h
    refine ⟨?_, ?_⟩
    · rw [e4]
      split_ifs with hc
      · have h3 := hc.2
        unfold SI5351_DRIVE_8MA at h3 ⊢
        omega
      · exact hd
    · rw [e3]
      split_ifs
      · unfold notnot
        split
        · exact Or.inl rfl
        · exact Or.inr rfl
      · exact he
  · have e : step ⟨k, v, a⟩ s = s := by
      simp [step, usbFunctionSetup, h0, h1]
    rw [e]
    exact h

theorem drive_enable_inv_run (rqs : List usbRequest_t) (s : State) (h : drive_enable_inv s) :
    drive_enable_inv (run rqs s) := by
  induction rqs generalizing s with
  | nil => exact h
  | cons rq rqs ih =>
    show drive_enable_inv (run rqs (step rq s))
    exact ih (step rq s) (drive_enable_inv_step rq s h)

theorem drive_enable_inv_startup (portb : Nat) :
    drive_enable_inv (main_startup (power_on portb)) := by
  constructor
  · show (0 : Nat) ≤ SI5351_DRIVE_8MA
    decide
  · exact Or.inl rfl

theorem clk_output_ext {x y : clk_output_t} (h1 : x.frequency = y.frequency)
    (h2 : x.enabled = y.enabled) (h3 : x.drive = y.drive) : x = y := by
  cases x; cases y; simp_all

theorem clk_outputs_ext {x y : clk_outputs_t} (h0 : x.c0 = y.c0) (h1 : x.c1 = y.c1)
    (h2 : x.c2 = y.c2) : x = y := by
  cases x; cases y; simp_all

/-- The stored frequency after two SET requests to different addresses does not
depend on their order. -/
theorem frequency_commute (s : State) (a b V W : Nat) (hab : a ≠ b)
    (hV : V < 65536) (hW : W < 65536) :
    (step (SET b W) (step (SET a V) s)).clk_outputs.c0.frequency
      = (step (SET a V) (step (SET b W) s)).clk_outputs.c0.frequency := by
  rw [(step_SET_fields b W (step (SET a V) s)).2.1, (step_SET_fields a V s).2.1,
    (step_SET_fields a V (step (SET b W) s)).2.1, (step_SET_fields b W s).2.1]
  by_cases a8 : a = REG_CLK0_FREQ_0
  · subst a8
    by_cases b9 : b = REG_CLK0_FREQ_1
    · subst b9
      simp only [REG_CLK0_FREQ_0, REG_CLK0_FREQ_1, if_true, if_false,
        show ¬ ((9 : Nat) = 8) by decide, show ¬ ((8 : Nat) = 9) by decide]
      rw [shl0_u16 hV, shl16_u16 hW, compose_halves _ hV, compose_halves_rev _ hV hW]
    · have b8 : ¬ b = REG_CLK0_FREQ_0 := fun h => hab h.symm
      simp only [b8, b9, if_true, if_false]
  · by_cases a9 : a = REG_CLK0_FREQ_1
    · subst a9
      by_cases b8 : b = REG_CLK0_FREQ_0
      · subst b8
        simp only [REG_CLK0_FREQ_0, REG_CLK0_FREQ_1, if_true, if_false,
          show ¬ ((9 : Nat) = 8) by decide, show ¬ ((8 : Nat) = 9) by decide]
        rw [shl0_u16 hW, shl16_u16 hV, compose_halves _ hW, compose_halves_rev _ hW hV]
      · have b9 : ¬ b = REG_CLK0_FREQ_1 := fun h => hab h.symm
        simp only [a8, b8, b9, if_true, if_false]
    · simp only [a8, a9, if_false]

theorem last_set_freq_append_none (cs ds : List Call) (h : last_set_freq ds = none) :
    last_set_freq (cs ++ ds) = last_set_freq cs := by
  induction cs with
  | nil => simp [last_set_freq, h]
  | cons c cs ih => simp [last_set_freq, ih]

theorem or_halves_eq_add {L H : Nat} (hL : L < 65536) :
    (H <<< 16) ||| L = 65536 * H + L := by
  have h := Nat.mul_add_lt_is_or (show L < 2 ^ 16 from hL) H
  rw [Nat.shiftLeft_eq, Nat.mul_comm]
  exact h.symm

theorem low_after_write (f : Nat) {L : Nat} (hL : L < 65536) :
    ((f &&& 0xFFFF0000) ||| L) &&& 0xFFFF = L := by
  have h := low_of_stored f hL
  rw [Nat.shiftRight_zero, low_mask_eq_mod, Nat.mod_mod] at h
  rw [low_mask_eq_mod]
  exact h

theorem GET_freq_values (s : State) (hf : s.clk_outputs.c0.frequency < 2 ^ 32) :
    (step (GET REG_CLK0_FREQ_0) s).response
        = ⟨s.clk_outputs.c0.frequency % 65536, STATUS_OK⟩ ∧
      (step (GET REG_CLK0_FREQ_1) s).response
        = ⟨s.clk_outputs.c0.frequency / 65536, STATUS_OK⟩ := by
  constructor
  · rw [step_GET_response]
    simp only [REG_CLK0_FREQ_0, REG_LED, Nat.shiftRight_zero, low_mask_eq_mod]
    simp
  · rw [step_GET_response]
    simp only [REG_CLK0_FREQ_0, REG_CLK0_FREQ_1, REG_LED, low_mask_eq_mod,
      Nat.shiftRight_eq_div_pow]
    simp
    omega

/-- After a write of the high half the stored frequency is the one last passed
to `si5351_set_freq`. -/
theorem committed_after_high (s : State) (H : Nat) :
    last_set_freq (step (SET REG_CLK0_FREQ_1 H) s).calls
      = some (step (SET REG_CLK0_FREQ_1 H) s).clk_outputs.c0.frequency := by
  rw [step_SET_freq1]
  exact last_set_freq_append_two _ _ _ _

/-- A request other than a SET of address 8 or 9 changes neither the stored
frequency nor the frequency last passed to `si5351_set_freq`. -/
theorem frequency_untouched (rq : usbRequest_t) (s : State)
    (h : ¬ (rq.bRequest = CTRL_SET_REGISTER ∧
      (rq.wIndex = REG_CLK0_FREQ_0 ∨ rq.wIndex = REG_CLK0_FREQ_1))) :
    (step rq s).clk_outputs.c0.frequency = s.clk_outputs.c0.frequency ∧
      last_set_freq (step rq s).calls = last_set_freq s.calls := by
  obtain ⟨k, v, a⟩ := rq
  by_cases h0 : k = CTRL_GET_REGISTER
  · subst h0
    have e : step ⟨CTRL_GET_REGISTER, v, a⟩ s = step (GET a) s := by
      unfold step
      rw [get_ignores_value]
    rw [e, step_GET_frame]
    exact ⟨rfl, rfl⟩
  by_cases h1 : k = CTRL_SET_REGISTER
  · subst h1
    have e : step ⟨CTRL_SET_REGISTER, v, a⟩ s = step (SET a v) s := rfl
    rw [e]
    have h8 : a ≠ REG_CLK0_FREQ_0 := fun hh => h ⟨rfl, Or.inl hh⟩
    have h9 : a ≠ REG_CLK0_FREQ_1 := fun hh => h ⟨rfl, Or.inr hh⟩
    rcases address_cases a with rfl | rfl | rfl | rfl | rfl | rfl | hu
    · rw [step_SET_led]
      exact ⟨rfl, rfl⟩
    · rw [step_SET_corr]
      exact ⟨rfl, last_set_freq_append_none _ _ rfl⟩
    · exact absurd rfl h8
    · exact absurd rfl h9
    · rw [step_SET_enable]
      exact ⟨rfl, last_set_freq_append_none _ _ rfl⟩
    · by_cases hd : v ≤ SI5351_DRIVE_8MA
      · rw [step_SET_drive_ok v s hd]
        exact ⟨rfl, last_set_freq_append_none _ _ rfl⟩
      · rw [step_SET_drive_rejected v s (Nat.not_le.mp hd)]
        exact ⟨rfl, rfl⟩
    · rw [step_SET_unknown a v s hu]
      exact ⟨rfl, rfl⟩
  · have e : step ⟨k, v, a⟩ s = s := by
      simp [step, usbFunctionSetup, h0, h1]
    rw [e]
    exact ⟨rfl, rfl⟩

/-- A sequence of requests without a SET of address 8 or 9 changes neither the
stored frequency nor the frequency last passed to `si5351_set_freq`. -/
theorem frequency_untouched_run (rqs : List usbRequest_t) (s : State)
    (h : ∀ rq ∈ rqs, ¬ (rq.bRequest = CTRL_SET_REGISTER ∧
      (rq.wIndex = REG_CLK0_FREQ_0 ∨ rq.wIndex = REG_CLK0_FREQ_1))) :
    (run rqs s).clk_outputs.c0.frequency = s.clk_outputs.c0.frequency ∧
      last_set_freq (run rqs s).calls = last_set_freq s.calls := by
  induction rqs generalizing s with
  | nil => exact ⟨rfl, rfl⟩
  | cons rq rqs ih =>
    have h1 := frequency_untouched rq s (h rq (List.mem_cons_self rq rqs))
    have h2 := ih (step rq s) (fun r hr => h r (List.mem_cons_of_mem rq hr))
    show (run rqs (step rq s)).clk_outputs.c0.frequency = _ ∧
      last_set_freq (run rqs (step rq s)).calls = _
    rw [h2.1, h2.2]
    exact h1

/-- Writing a low half over composed halves replaces the low half only. -/
theorem low_rewrite {H L M : Nat} (hH : H < 65536) (hL : L < 65536) :
    (((H <<< 16) ||| L) &&& 0xFFFF0000) ||| M = (H <<< 16) ||| M := by
  apply Nat.eq_of_testBit_eq
  intro i
  simp only [Nat.testBit_or, Nat.testBit_and, testBit_mask_hi, Nat.testBit_shiftLeft]
  by_cases h : 16 ≤ i
  · by_cases h2 : i < 32
    · simp [h, h2, testBit_u16 hL h]
    · have h3 : H.testBit (i - 16) = false := testBit_u16 hH (by omega)
      simp [h, h2, h3, testBit_u16 hL h]
  · simp [h]

/-! ## The claims -/

/-- C1 (split-write commit): for every state and all 16-bit `L` and `H`,
`SET(8, L)` followed by `SET(9, H)` leaves the stored channel-0 frequency equal
to `(H << 16) | L`; the calls that the two requests add to the trace are exactly
one `si5351_set_freq` with that value on channel 0, followed by its diagnostic
line; `SET(8, L)` on its own adds no call at all. -/
theorem split_write_commit (s : State) (L H : Nat) (hL : L < 65536) (hH : H < 65536) :
    (step (SET REG_CLK0_FREQ_1 H) (step (SET REG_CLK0_FREQ_0 L) s)).clk_outputs.c0.frequency
        = (H <<< 16) ||| L ∧
      (step (SET REG_CLK0_FREQ_1 H) (step (SET REG_CLK0_FREQ_0 L) s)).calls
        = s.calls ++ [Call.si5351_set_freq ((H <<< 16) ||| L) SI5351_CLK0,
                      Call.uart_puts (line_frequency ((H <<< 16) ||| L))] ∧
      ((step (SET REG_CLK0_FREQ_1 H) (step (SET REG_CLK0_FREQ_0 L) s)).calls.filter
        Call.is_driver).length = (s.calls.filter Call.is_driver).length + 1 ∧
      (step (SET REG_CLK0_FREQ_0 L) s).calls = s.calls := by
  have hf : (((s.clk_outputs.c0.frequency &&& 0xFFFF0000) ||| ((L <<< 0) % 2 ^ 32))
      &&& 0x0000FFFF) ||| ((H <<< 16) % 2 ^ 32) = (H <<< 16) ||| L := by
    rw [shl0_u16 hL, shl16_u16 hH]
    exact compose_halves _ hL
  refine ⟨?_, ?_, ?_, ?_⟩
  · rw [step_SET_freq1, step_SET_freq0]
    exact hf
  · rw [step_SET_freq1, step_SET_freq0]
    simp only [hf]
  · rw [step_SET_freq1, step_SET_freq0]
    simp [Call.is_driver]
  · rw [step_SET_freq0]

theorem split_write_commit_witness :
    27200 < 65536 ∧ 107 < 65536 ∧
    ((step (SET REG_CLK0_FREQ_1 107)
        (step (SET REG_CLK0_FREQ_0 27200) (power_on 0))).clk_outputs.c0.frequency
        = (107 <<< 16) ||| 27200 ∧
      (step (SET REG_CLK0_FREQ_1 107) (step (SET REG_CLK0_FREQ_0 27200) (power_on 0))).calls
        = (power_on 0).calls ++ [Call.si5351_set_freq ((107 <<< 16) ||| 27200) SI5351_CLK0,
                      Call.uart_puts (line_frequency ((107 <<< 16) ||| 27200))] ∧
      ((step (SET REG_CLK0_FREQ_1 107)
        (step (SET REG_CLK0_FREQ_0 27200) (power_on 0))).calls.filter Call.is_driver).length
        = ((power_on 0).calls.filter Call.is_driver).length + 1 ∧
      (step (SET REG_CLK0_FREQ_0 27200) (power_on 0)).calls = (power_on 0).calls) :=
  ⟨by decide, by decide,
    split_write_commit (power_on 0) 27200 107 (by decide) (by decide)⟩

/-- C2 (unknown address): for every address outside {0, 1, 8, 9, 10, 11}, every
value and every state, a GET and a SET request alike return the record
`{0, STATUS_ERROR}` with the length of one record, leave the port, the three
channel records, the correction and the text buffer unchanged and add no call
to the trace. -/
theorem unknown_address (rq : usbRequest_t) (s : State)
    (hk : rq.bRequest = CTRL_GET_REGISTER ∨ rq.bRequest = CTRL_SET_REGISTER)
    (ha : rq.wIndex ≠ REG_LED ∧ rq.wIndex ≠ REG_FREQ_CORR ∧ rq.wIndex ≠ REG_CLK0_FREQ_0 ∧
      rq.wIndex ≠ REG_CLK0_FREQ_1 ∧ rq.wIndex ≠ REG_CLK0_ENABLE ∧ rq.wIndex ≠ REG_CLK0_DRIVE) :
    (step rq s).response = ⟨0, STATUS_ERROR⟩ ∧
      msg_len rq s = 4 ∧
      (step rq s).usbMsgPtr = MsgPtr.response ∧
      (step rq s).PORTB = s.PORTB ∧
      (step rq s).clk_outputs = s.clk_outputs ∧
      (step rq s).freq_corr = s.freq_corr ∧
      (step rq s).strbuf = s.strbuf ∧
      (step rq s).calls = s.calls := by
  obtain ⟨h0, h1, h8, h9, h10, h11⟩ := ha
  rcases hk with hk | hk
  · simp [step, msg_len, usbFunctionSetup_get rq s hk, get_switch, h0, h1, h8, h9, h10, h11,
      sizeof_response]
  · simp [step, msg_len, usbFunctionSetup_set rq s hk, set_switch, h0, h1, h8, h9, h10, h11,
      sizeof_response]

theorem unknown_address_witness :
    ((SET 4660 7).bRequest = CTRL_GET_REGISTER ∨ (SET 4660 7).bRequest = CTRL_SET_REGISTER) ∧
    ((SET 4660 7).wIndex ≠ REG_LED ∧ (SET 4660 7).wIndex ≠ REG_FREQ_CORR ∧
      (SET 4660 7).wIndex ≠ REG_CLK0_FREQ_0 ∧ (SET 4660 7).wIndex ≠ REG_CLK0_FREQ_1 ∧
      (SET 4660 7).wIndex ≠ REG_CLK0_ENABLE ∧ (SET 4660 7).wIndex ≠ REG_CLK0_DRIVE) ∧
    ((step (SET 4660 7) (power_on 0)).response = ⟨0, STATUS_ERROR⟩ ∧
      msg_len (SET 4660 7) (power_on 0) = 4 ∧
      (step (SET 4660 7) (power_on 0)).usbMsgPtr = MsgPtr.response ∧
      (step (SET 4660 7) (power_on 0)).PORTB = (power_on 0).PORTB ∧
      (step (SET 4660 7) (power_on 0)).clk_outputs = (power_on 0).clk_outputs ∧
      (step (SET 4660 7) (power_on 0)).freq_corr = (power_on 0).freq_corr ∧
      (step (SET 4660 7) (power_on 0)).strbuf = (power_on 0).strbuf ∧
      (step (SET 4660 7) (power_on 0)).calls = (power_on 0).calls) :=
  ⟨by decide, by decide, unknown_address (SET 4660 7) (power_on 0) (by decide) (by decide)⟩

/-- C3 (bounds rejection): for every state and every level above
`SI5351_DRIVE_8MA`, `SET(11, level)` returns `{0, STATUS_ERROR}`, leaves the
stored drive and every other register unchanged and adds no call, neither to
the driver nor to the UART. -/
theorem drive_bounds_rejection (s : State) (level : Nat) (h : level > SI5351_DRIVE_8MA) :
    (step (SET REG_CLK0_DRIVE level) s).response = ⟨0, STATUS_ERROR⟩ ∧
      (step (SET REG_CLK0_DRIVE level) s).clk_outputs.c0.drive = s.clk_outputs.c0.drive ∧
      (step (SET REG_CLK0_DRIVE level) s).clk_outputs = s.clk_outputs ∧
      (step (SET REG_CLK0_DRIVE level) s).PORTB = s.PORTB ∧
      (step (SET REG_CLK0_DRIVE level) s).freq_corr = s.freq_corr ∧
      (step (SET REG_CLK0_DRIVE level) s).strbuf = s.strbuf ∧
      (step (SET REG_CLK0_DRIVE level) s).calls = s.calls := by
  rw [step_SET_drive_rejected level s h]
  simp

theorem drive_bounds_rejection_witness :
    4 > SI5351_DRIVE_8MA ∧
    ((step (SET REG_CLK0_DRIVE 4) (power_on 0)).response = ⟨0, STATUS_ERROR⟩ ∧
      (step (SET REG_CLK0_DRIVE 4) (power_on 0)).clk_outputs.c0.drive
        = (power_on 0).clk_outputs.c0.drive ∧
      (step (SET REG_CLK0_DRIVE 4) (power_on 0)).clk_outputs = (power_on 0).clk_outputs ∧
      (step (SET REG_CLK0_DRIVE 4) (power_on 0)).PORTB = (power_on 0).PORTB ∧
      (step (SET REG_CLK0_DRIVE 4) (power_on 0)).freq_corr = (power_on 0).freq_corr ∧
      (step (SET REG_CLK0_DRIVE 4) (power_on 0)).strbuf = (power_on 0).strbuf ∧
      (step (SET REG_CLK0_DRIVE 4) (power_on 0)).calls = (power_on 0).calls) :=
  ⟨by decide, drive_bounds_rejection (power_on 0) 4 (by decide)⟩

/-- C4, as stated, fails on the drive register: after start-up, `SET(11, 5)`
is rejected by the range check, and the `GET(11)` that follows returns the
stored level 0 with `STATUS_OK`, not the value 5 that was written. -/
theorem round_trip_drive_counterexample :
    (5 : Nat) < 65536 ∧
    (step (GET REG_CLK0_DRIVE)
      (step (SET REG_CLK0_DRIVE 5) (main_startup (power_on 0)))).response = ⟨0, STATUS_OK⟩ ∧
    (step (GET REG_CLK0_DRIVE)
      (step (SET REG_CLK0_DRIVE 5) (main_startup (power_on 0)))).response ≠ ⟨5, STATUS_OK⟩ := by
  decide

/-- C4, amended (round trip): for every state and every 16-bit `V`, `SET(addr, V)`
followed by `GET(addr)` returns `{V, STATUS_OK}` for the addresses 1, 8 and 9,
and for address 11 when `V` is at most `SI5351_DRIVE_8MA`; for the addresses 0
and 10 it returns 1 when `V` is nonzero and 0 when `V` is zero; for address 11
and `V` above `SI5351_DRIVE_8MA` it returns the drive level stored before the
rejected write. -/
theorem round_trip (s : State) (V : Nat) (hV : V < 65536) :
    (step (GET REG_LED) (step (SET REG_LED V) s)).response
        = ⟨if V = 0 then 0 else 1, STATUS_OK⟩ ∧
      (step (GET REG_FREQ_CORR) (step (SET REG_FREQ_CORR V) s)).response = ⟨V, STATUS_OK⟩ ∧
      (step (GET REG_CLK0_FREQ_0) (step (SET REG_CLK0_FREQ_0 V) s)).response
        = ⟨V, STATUS_OK⟩ ∧
      (step (GET REG_CLK0_FREQ_1) (step (SET REG_CLK0_FREQ_1 V) s)).response
        = ⟨V, STATUS_OK⟩ ∧
      (step (GET REG_CLK0_ENABLE) (step (SET REG_CLK0_ENABLE V) s)).response
        = ⟨if V = 0 then 0 else 1, STATUS_OK⟩ ∧
      (step (GET REG_CLK0_DRIVE) (step (SET REG_CLK0_DRIVE V) s)).response
        = ⟨if V ≤ SI5351_DRIVE_8MA then V else s.clk_outputs.c0.drive, STATUS_OK⟩ := by
  refine ⟨?_, ?_, ?_, ?_, ?_, ?_⟩
  · rw [step_SET_led, step_GET]
    by_cases h : V = 0
    · simp [get_switch, REG_LED, led_value, h, led_bit_after_off, notnot]
    · simp [get_switch, REG_LED, led_value, h, led_bit_after_on, notnot]
  · rw [step_SET_corr, step_GET]
    simp [get_switch, REG_LED, REG_FREQ_CORR, REG_CLK0_FREQ_0, REG_CLK0_FREQ_1,
      REG_CLK0_ENABLE, REG_CLK0_DRIVE, to_uint16_to_int16 hV]
  · rw [step_SET_freq0, step_GET]
    have h := low_of_stored s.clk_outputs.c0.frequency hV
    simp only [get_switch, REG_LED, REG_CLK0_FREQ_0, shl0_u16 hV]
    simp only [Nat.shiftRight_zero] at h ⊢
    simp [h]
  · rw [step_SET_freq1, step_GET]
    have h := high_of_stored s.clk_outputs.c0.frequency hV
    simp only [get_switch, REG_LED, REG_CLK0_FREQ_0, REG_CLK0_FREQ_1, shl16_u16 hV]
    simp [h]
  · rw [step_SET_enable, step_GET]
    simp [get_switch, REG_LED, REG_FREQ_CORR, REG_CLK0_FREQ_0, REG_CLK0_FREQ_1,
      REG_CLK0_ENABLE, notnot]
  · by_cases h : V ≤ SI5351_DRIVE_8MA
    · rw [step_SET_drive_ok V s h, step_GET]
      have h3 : V % 256 = V := Nat.mod_eq_of_lt (by unfold SI5351_DRIVE_8MA at h; omega)
      simp [get_switch, REG_LED, REG_FREQ_CORR, REG_CLK0_FREQ_0, REG_CLK0_FREQ_1,
        REG_CLK0_ENABLE, REG_CLK0_DRIVE, h3, h]
    · rw [step_SET_drive_rejected V s (Nat.not_le.mp h), step_GET]
      simp [get_switch, REG_LED, REG_FREQ_CORR, REG_CLK0_FREQ_0, REG_CLK0_FREQ_1,
        REG_CLK0_ENABLE, REG_CLK0_DRIVE, h]

theorem round_trip_witness :
    2 < 65536 ∧
    ((step (GET REG_LED) (step (SET REG_LED 2) (power_on 0))).response
        = ⟨if 2 = 0 then 0 else 1, STATUS_OK⟩ ∧
      (step (GET REG_FREQ_CORR) (step (SET REG_FREQ_CORR 2) (power_on 0))).response
        = ⟨2, STATUS_OK⟩ ∧
      (step (GET REG_CLK0_FREQ_0) (step (SET REG_CLK0_FREQ_0 2) (power_on 0))).response
        = ⟨2, STATUS_OK⟩ ∧
      (step (GET REG_CLK0_FREQ_1) (step (SET REG_CLK0_FREQ_1 2) (power_on 0))).response
        = ⟨2, STATUS_OK⟩ ∧
      (step (GET REG_CLK0_ENABLE) (step (SET REG_CLK0_ENABLE 2) (power_on 0))).response
        = ⟨if 2 = 0 then 0 else 1, STATUS_OK⟩ ∧
      (step (GET REG_CLK0_DRIVE) (step (SET REG_CLK0_DRIVE 2) (power_on 0))).response
        = ⟨if 2 ≤ SI5351_DRIVE_8MA then 2 else (power_on 0).clk_outputs.c0.drive,
            STATUS_OK⟩) :=
  ⟨by decide, round_trip (power_on 0) 2 (by decide)⟩

/-- C5 (request kinds): a request whose kind is neither `CTRL_GET_REGISTER` nor
`CTRL_SET_REGISTER` returns length 0 and leaves the whole state, trace of calls
included, as it was; a request of kind 0 or 1 returns the size of the response
record, which is 4, and points the reply at that record. -/
theorem request_kind_dispatch (rq : usbRequest_t) (s : State) :
    (rq.bRequest ≠ CTRL_GET_REGISTER ∧ rq.bRequest ≠ CTRL_SET_REGISTER →
        usbFunctionSetup rq s = (s, 0)) ∧
      (rq.bRequest = CTRL_GET_REGISTER ∨ rq.bRequest = CTRL_SET_REGISTER →
        msg_len rq s = sizeof_response ∧ sizeof_response = 4 ∧
        (step rq s).usbMsgPtr = MsgPtr.response) := by
  constructor
  · rintro ⟨h0, h1⟩
    simp [usbFunctionSetup, h0, h1]
  · rintro (h | h)
    · simp [step, msg_len, usbFunctionSetup_get rq s h, sizeof_response]
    · simp [step, msg_len, usbFunctionSetup_set rq s h, sizeof_response]

theorem request_kind_dispatch_witness :
    ((2 : Nat) ≠ CTRL_GET_REGISTER ∧ (2 : Nat) ≠ CTRL_SET_REGISTER) ∧
    usbFunctionSetup ⟨2, 1, 0⟩ (power_on 0) = (power_on 0, 0) ∧
    ((GET 9).bRequest = CTRL_GET_REGISTER ∨ (GET 9).bRequest = CTRL_SET_REGISTER) ∧
    (msg_len (GET 9) (power_on 0) = sizeof_response ∧ sizeof_response = 4 ∧
      (step (GET 9) (power_on 0)).usbMsgPtr = MsgPtr.response) :=
  ⟨by decide, (request_kind_dispatch ⟨2, 1, 0⟩ (power_on 0)).1 (by decide), by decide,
    (request_kind_dispatch (GET 9) (power_on 0)).2 (by decide)⟩

/-- C6 (defaults): in the state that `main` reaches before its poll loop, with
the LED pin low, a GET of each address 0, 1, 8, 9, 10 and 11 returns
`STATUS_OK` with value 0 for the LED, the correction, both frequency halves and
the enable flag, and with `SI5351_DRIVE_2MA` for the drive, which is the level
that the start-up sequence has passed to `si5351_drive_strength` for channel 0. -/
theorem default_reads (portb : Nat) (hled : led_value (power_on portb) = 0) :
    (step (GET REG_LED) (main_startup (power_on portb))).response = ⟨0, STATUS_OK⟩ ∧
      (step (GET REG_FREQ_CORR) (main_startup (power_on portb))).response = ⟨0, STATUS_OK⟩ ∧
      (step (GET REG_CLK0_FREQ_0) (main_startup (power_on portb))).response
        = ⟨0, STATUS_OK⟩ ∧
      (step (GET REG_CLK0_FREQ_1) (main_startup (power_on portb))).response
        = ⟨0, STATUS_OK⟩ ∧
      (step (GET REG_CLK0_ENABLE) (main_startup (power_on portb))).response
        = ⟨0, STATUS_OK⟩ ∧
      (step (GET REG_CLK0_DRIVE) (main_startup (power_on portb))).response
        = ⟨SI5351_DRIVE_2MA, STATUS_OK⟩ ∧
      (main_startup (power_on portb)).calls
        = [Call.uart_puts "WSPR Beacon by OE5TKM\n", Call.si5351_init,
           Call.si5351_drive_strength SI5351_CLK0 SI5351_DRIVE_2MA] := by
  have hl : led_value (main_startup (power_on portb)) = 0 := hled
  refine ⟨?_, ?_, ?_, ?_, ?_, ?_, ?_⟩
  · rw [step_GET]
    simp only [get_switch, REG_LED, if_true]
    show (⟨led_value (main_startup (power_on portb)), STATUS_OK⟩ : response_t) = _
    rw [hl]
  · rfl
  · simp [step_GET, get_switch, REG_LED, REG_CLK0_FREQ_0, main_startup, power_on, emit]
  · simp [step_GET, get_switch, REG_LED, REG_CLK0_FREQ_0, REG_CLK0_FREQ_1, main_startup,
      power_on, emit]
  · rfl
  · rfl
  · rfl

theorem default_reads_witness :
    led_value (power_on 0) = 0 ∧
    ((step (GET REG_LED) (main_startup (power_on 0))).response = ⟨0, STATUS_OK⟩ ∧
      (step (GET REG_FREQ_CORR) (main_startup (power_on 0))).response = ⟨0, STATUS_OK⟩ ∧
      (step (GET REG_CLK0_FREQ_0) (main_startup (power_on 0))).response
        = ⟨0, STATUS_OK⟩ ∧
      (step (GET REG_CLK0_FREQ_1) (main_startup (power_on 0))).response
        = ⟨0, STATUS_OK⟩ ∧
      (step (GET REG_CLK0_ENABLE) (main_startup (power_on 0))).response
        = ⟨0, STATUS_OK⟩ ∧
      (step (GET REG_CLK0_DRIVE) (main_startup (power_on 0))).response
        = ⟨SI5351_DRIVE_2MA, STATUS_OK⟩ ∧
      (main_startup (power_on 0)).calls
        = [Call.uart_puts "WSPR Beacon by OE5TKM\n", Call.si5351_init,
           Call.si5351_drive_strength SI5351_CLK0 SI5351_DRIVE_2MA]) :=
  ⟨by decide, default_reads 0 (by decide)⟩

/-- C7 (GET is a pure read): for every address and every state, a request of
kind `CTRL_GET_REGISTER` leaves the port (and with it the LED), the three channel
records, the correction and the text buffer as they were and adds no call to the
trace, neither to the synthesizer driver nor to the UART. -/
theorem get_pure_read (rq : usbRequest_t) (s : State)
    (hk : rq.bRequest = CTRL_GET_REGISTER) :
    (step rq s).PORTB = s.PORTB ∧
      led_value (step rq s) = led_value s ∧
      (step rq s).clk_outputs = s.clk_outputs ∧
      (step rq s).freq_corr = s.freq_corr ∧
      (step rq s).strbuf = s.strbuf ∧
      (step rq s).calls = s.calls := by
  have h : (step rq s).PORTB = s.PORTB ∧ (step rq s).clk_outputs = s.clk_outputs ∧
      (step rq s).freq_corr = s.freq_corr ∧ (step rq s).strbuf = s.strbuf ∧
      (step rq s).calls = s.calls := by
    simp only [step, usbFunctionSetup_get rq s hk, get_switch]
    split_ifs <;> simp
  obtain ⟨h1, h2, h3, h4, h5⟩ := h
  refine ⟨h1, ?_, h2, h3, h4, h5⟩
  simp only [led_value, h1]

theorem get_pure_read_witness :
    (GET 9).bRequest = CTRL_GET_REGISTER ∧
    ((step (GET 9) (main_startup (power_on 32))).PORTB = (main_startup (power_on 32)).PORTB ∧
      led_value (step (GET 9) (main_startup (power_on 32)))
        = led_value (main_startup (power_on 32)) ∧
      (step (GET 9) (main_startup (power_on 32))).clk_outputs
        = (main_startup (power_on 32)).clk_outputs ∧
      (step (GET 9) (main_startup (power_on 32))).freq_corr
        = (main_startup (power_on 32)).freq_corr ∧
      (step (GET 9) (main_startup (power_on 32))).strbuf
        = (main_startup (power_on 32)).strbuf ∧
      (step (GET 9) (main_startup (power_on 32))).calls
        = (main_startup (power_on 32)).calls) :=
  ⟨by decide, get_pure_read (GET 9) (main_startup (power_on 32)) (by decide)⟩

/-- C8 (LED idempotence): from every state, whatever the other bits of the
port, `SET(0, 1)` followed by `GET(0)` returns `{1, STATUS_OK}`, and a second
`SET(0, 1)` leaves the whole state equal to the state after the first. -/
theorem led_idempotent (s : State) :
    (step (GET REG_LED) (step (SET REG_LED 1) s)).response = ⟨1, STATUS_OK⟩ ∧
      step (SET REG_LED 1) (step (SET REG_LED 1) s) = step (SET REG_LED 1) s := by
  constructor
  · rw [step_SET_led, step_GET]
    simp [get_switch, REG_LED, led_value, led_bit_after_on, notnot]
  · rw [step_SET_led, step_SET_led]
    simp [led_on_on]

/-- C9 (driver side effects): a SET on address 9, 10 or 1, and a SET on address
11 that returns `STATUS_OK`, adds to the trace exactly one driver call followed
by one diagnostic line: `si5351_set_freq`, `si5351_output_enable`,
`si5351_set_correction` and `si5351_drive_strength` respectively, with the value
that the request has just stored, and with `SI5351_CLK0` as channel wherever the
call takes one (`si5351_set_correction` takes none).  A SET on address 0 or 8
adds no call. -/
theorem driver_side_effects (s : State) (V : Nat) :
    (step (SET REG_CLK0_FREQ_1 V) s).calls
        = s.calls ++
          [Call.si5351_set_freq (step (SET REG_CLK0_FREQ_1 V) s).clk_outputs.c0.frequency
            SI5351_CLK0,
           Call.uart_puts
            (line_frequency (step (SET REG_CLK0_FREQ_1 V) s).clk_outputs.c0.frequency)] ∧
      (step (SET REG_CLK0_ENABLE V) s).calls
        = s.calls ++
          [Call.si5351_output_enable SI5351_CLK0
            (step (SET REG_CLK0_ENABLE V) s).clk_outputs.c0.enabled,
           Call.uart_puts (line_enable V)] ∧
      ((step (SET REG_CLK0_DRIVE V) s).response.status = STATUS_OK →
        (step (SET REG_CLK0_DRIVE V) s).calls
          = s.calls ++
            [Call.si5351_drive_strength SI5351_CLK0
              (step (SET REG_CLK0_DRIVE V) s).clk_outputs.c0.drive,
             Call.uart_puts (line_drive V)]) ∧
      (step (SET REG_FREQ_CORR V) s).calls
        = s.calls ++
          [Call.si5351_set_correction (step (SET REG_FREQ_CORR V) s).freq_corr,
           Call.uart_puts (line_correction (step (SET REG_FREQ_CORR V) s).freq_corr)] ∧
      (step (SET REG_LED V) s).calls = s.calls ∧
      (step (SET REG_CLK0_FREQ_0 V) s).calls = s.calls := by
  refine ⟨?_, ?_, ?_, ?_, ?_, ?_⟩
  · rw [step_SET_freq1]
  · rw [step_SET_enable]
  · intro hok
    by_cases h : V ≤ SI5351_DRIVE_8MA
    · rw [step_SET_drive_ok V s h]
      have h3 : V % 256 = V := Nat.mod_eq_of_lt (by unfold SI5351_DRIVE_8MA at h; omega)
      simp [h3]
    · rw [step_SET_drive_rejected V s (Nat.not_le.mp h)] at hok
      simp [STATUS_OK, STATUS_ERROR] at hok
  · rw [step_SET_corr]
  · rw [step_SET_led]
  · rw [step_SET_freq0]

theorem driver_side_effects_witness :
    (step (SET REG_CLK0_DRIVE 3) (power_on 0)).response.status = STATUS_OK ∧
    (step (SET REG_CLK0_DRIVE 3) (power_on 0)).calls
      = (power_on 0).calls ++
        [Call.si5351_drive_strength SI5351_CLK0
          (step (SET REG_CLK0_DRIVE 3) (power_on 0)).clk_outputs.c0.drive,
         Call.uart_puts (line_drive 3)] :=
  ⟨by decide, (driver_side_effects (power_on 0) 3).2.2.1 (by decide)⟩

/-- C10 (half-word retention): for every state with stored frequency `f` and
all 16-bit `H` and `L`, `SET(9, H)` returns `{H, STATUS_OK}` and both stores and
passes to `si5351_set_freq` the value `(H << 16) | (f & 0xFFFF)`, whose low 16
bits are those of `f`; `SET(8, L)` returns `{L, STATUS_OK}` and stores
`(f & 0xFFFF0000) | L`, whose bits 16 to 31 are those of `f`. -/
theorem half_word_retention (s : State) (H L : Nat) (hH : H < 65536) (hL : L < 65536) :
    (step (SET REG_CLK0_FREQ_1 H) s).response = ⟨H, STATUS_OK⟩ ∧
      (step (SET REG_CLK0_FREQ_1 H) s).clk_outputs.c0.frequency
        = (H <<< 16) ||| (s.clk_outputs.c0.frequency &&& 0xFFFF) ∧
      (step (SET REG_CLK0_FREQ_1 H) s).calls
        = s.calls ++
          [Call.si5351_set_freq ((H <<< 16) ||| (s.clk_outputs.c0.frequency &&& 0xFFFF))
            SI5351_CLK0,
           Call.uart_puts
            (line_frequency ((H <<< 16) ||| (s.clk_outputs.c0.frequency &&& 0xFFFF)))] ∧
      (step (SET REG_CLK0_FREQ_1 H) s).clk_outputs.c0.frequency &&& 0xFFFF
        = s.clk_outputs.c0.frequency &&& 0xFFFF ∧
      (step (SET REG_CLK0_FREQ_0 L) s).response = ⟨L, STATUS_OK⟩ ∧
      (step (SET REG_CLK0_FREQ_0 L) s).clk_outputs.c0.frequency
        = (s.clk_outputs.c0.frequency &&& 0xFFFF0000) ||| L ∧
      (step (SET REG_CLK0_FREQ_0 L) s).clk_outputs.c0.frequency &&& 0xFFFF0000
        = s.clk_outputs.c0.frequency &&& 0xFFFF0000 := by
  have hf : (s.clk_outputs.c0.frequency &&& 0x0000FFFF) ||| ((H <<< 16) % 2 ^ 32)
      = (H <<< 16) ||| (s.clk_outputs.c0.frequency &&& 0xFFFF) := by
    rw [shl16_u16 hH, Nat.or_comm]
  refine ⟨?_, ?_, ?_, ?_, ?_, ?_, ?_⟩
  · rw [step_SET_freq1]
  · rw [step_SET_freq1]
    exact hf
  · rw [step_SET_freq1]
    simp only [hf]
  · rw [step_SET_freq1]
    show ((s.clk_outputs.c0.frequency &&& 0x0000FFFF) ||| ((H <<< 16) % 2 ^ 32)) &&& 0xFFFF = _
    rw [shl16_u16 hH]
    apply Nat.eq_of_testBit_eq
    intro i
    simp only [Nat.testBit_or, Nat.testBit_and, testBit_mask_lo, Nat.testBit_shiftLeft]
    by_cases h : i < 16
    · have h1 : ¬ 16 ≤ i := by omega
      simp [h, h1]
    · simp [h]
  · rw [step_SET_freq0]
  · rw [step_SET_freq0]
    show (s.clk_outputs.c0.frequency &&& 0xFFFF0000) ||| ((L <<< 0) % 2 ^ 32) = _
    rw [shl0_u16 hL]
  · rw [step_SET_freq0]
    show ((s.clk_outputs.c0.frequency &&& 0xFFFF0000) ||| ((L <<< 0) % 2 ^ 32)) &&& 0xFFFF0000
      = _
    rw [shl0_u16 hL]
    apply Nat.eq_of_testBit_eq
    intro i
    simp only [Nat.testBit_or, Nat.testBit_and, testBit_mask_hi]
    by_cases h : 16 ≤ i
    · simp [h, testBit_u16 hL h]
    · simp [h]

theorem half_word_retention_witness :
    107 < 65536 ∧ 27200 < 65536 ∧
    ((step (SET REG_CLK0_FREQ_1 107) (power_on 0)).response = ⟨107, STATUS_OK⟩ ∧
      (step (SET REG_CLK0_FREQ_1 107) (power_on 0)).clk_outputs.c0.frequency
        = (107 <<< 16) ||| ((power_on 0).clk_outputs.c0.frequency &&& 0xFFFF) ∧
      (step (SET REG_CLK0_FREQ_1 107) (power_on 0)).calls
        = (power_on 0).calls ++
          [Call.si5351_set_freq
            ((107 <<< 16) ||| ((power_on 0).clk_outputs.c0.frequency &&& 0xFFFF)) SI5351_CLK0,
           Call.uart_puts (line_frequency
            ((107 <<< 16) ||| ((power_on 0).clk_outputs.c0.frequency &&& 0xFFFF)))] ∧
      (step (SET REG_CLK0_FREQ_1 107) (power_on 0)).clk_outputs.c0.frequency &&& 0xFFFF
        = (power_on 0).clk_outputs.c0.frequency &&& 0xFFFF ∧
      (step (SET REG_CLK0_FREQ_0 27200) (power_on 0)).response = ⟨27200, STATUS_OK⟩ ∧
      (step (SET REG_CLK0_FREQ_0 27200) (power_on 0)).clk_outputs.c0.frequency
        = ((power_on 0).clk_outputs.c0.frequency &&& 0xFFFF0000) ||| 27200 ∧
      (step (SET REG_CLK0_FREQ_0 27200) (power_on 0)).clk_outputs.c0.frequency &&& 0xFFFF0000
        = (power_on 0).clk_outputs.c0.frequency &&& 0xFFFF0000) :=
  ⟨by decide, by decide, half_word_retention (power_on 0) 107 27200 (by decide) (by decide)⟩

/-- C11 (status characterisation): a GET returns `STATUS_OK` exactly for the
addresses 0, 1, 8, 9, 10 and 11; a SET returns `STATUS_OK` exactly for these
addresses, with the value at most `SI5351_DRIVE_8MA` when the address is 11.
In every other case the response is `{0, STATUS_ERROR}` and the port, the
channel records, the correction and the trace of calls are unchanged.  The
status of a GET or SET is never anything but 0 or 1. -/
theorem status_characterisation (s : State) (a V : Nat) :
    ((step (GET a) s).response.status = STATUS_OK ↔
        (a = REG_LED ∨ a = REG_FREQ_CORR ∨ a = REG_CLK0_FREQ_0 ∨ a = REG_CLK0_FREQ_1 ∨
          a = REG_CLK0_ENABLE ∨ a = REG_CLK0_DRIVE)) ∧
      ((step (SET a V) s).response.status = STATUS_OK ↔
        ((a = REG_LED ∨ a = REG_FREQ_CORR ∨ a = REG_CLK0_FREQ_0 ∨ a = REG_CLK0_FREQ_1 ∨
          a = REG_CLK0_ENABLE ∨ a = REG_CLK0_DRIVE) ∧
         (a = REG_CLK0_DRIVE → V ≤ SI5351_DRIVE_8MA))) ∧
      ((step (GET a) s).response.status ≠ STATUS_OK →
        (step (GET a) s).response = ⟨0, STATUS_ERROR⟩ ∧
        (step (GET a) s).PORTB = s.PORTB ∧
        (step (GET a) s).clk_outputs = s.clk_outputs ∧
        (step (GET a) s).freq_corr = s.freq_corr ∧
        (step (GET a) s).calls = s.calls) ∧
      ((step (SET a V) s).response.status ≠ STATUS_OK →
        (step (SET a V) s).response = ⟨0, STATUS_ERROR⟩ ∧
        (step (SET a V) s).PORTB = s.PORTB ∧
        (step (SET a V) s).clk_outputs = s.clk_outputs ∧
        (step (SET a V) s).freq_corr = s.freq_corr ∧
        (step (SET a V) s).calls = s.calls) ∧
      ((step (GET a) s).response.status = 0 ∨ (step (GET a) s).response.status = 1) ∧
      ((step (SET a V) s).response.status = 0 ∨ (step (SET a V) s).response.status = 1) := by
  rcases address_cases a with rfl | rfl | rfl | rfl | rfl | rfl | h
  · rw [step_SET_led, step_GET]
    simp [get_switch, REG_LED, REG_FREQ_CORR, REG_CLK0_FREQ_0, REG_CLK0_FREQ_1,
      REG_CLK0_ENABLE, REG_CLK0_DRIVE, STATUS_OK, STATUS_ERROR]
  · rw [step_SET_corr, step_GET]
    simp [get_switch, REG_LED, REG_FREQ_CORR, REG_CLK0_FREQ_0, REG_CLK0_FREQ_1,
      REG_CLK0_ENABLE, REG_CLK0_DRIVE, STATUS_OK, STATUS_ERROR]
  · rw [step_SET_freq0, step_GET]
    simp [get_switch, REG_LED, REG_FREQ_CORR, REG_CLK0_FREQ_0, REG_CLK0_FREQ_1,
      REG_CLK0_ENABLE, REG_CLK0_DRIVE, STATUS_OK, STATUS_ERROR]
  · rw [step_SET_freq1, step_GET]
    simp [get_switch, REG_LED, REG_FREQ_CORR, REG_CLK0_FREQ_0, REG_CLK0_FREQ_1,
      REG_CLK0_ENABLE, REG_CLK0_DRIVE, STATUS_OK, STATUS_ERROR]
  · rw [step_SET_enable, step_GET]
    simp [get_switch, REG_LED, REG_FREQ_CORR, REG_CLK0_FREQ_0, REG_CLK0_FREQ_1,
      REG_CLK0_ENABLE, REG_CLK0_DRIVE, STATUS_OK, STATUS_ERROR]
  · by_cases hd : V ≤ SI5351_DRIVE_8MA
    · rw [step_SET_drive_ok V s hd, step_GET]
      simp [get_switch, REG_LED, REG_FREQ_CORR, REG_CLK0_FREQ_0, REG_CLK0_FREQ_1,
        REG_CLK0_ENABLE, REG_CLK0_DRIVE, STATUS_OK, STATUS_ERROR, hd]
    · rw [step_SET_drive_rejected V s (Nat.not_le.mp hd), step_GET]
      simp [get_switch, REG_LED, REG_FREQ_CORR, REG_CLK0_FREQ_0, REG_CLK0_FREQ_1,
        REG_CLK0_ENABLE, REG_CLK0_DRIVE, STATUS_OK, STATUS_ERROR, hd]
  · rw [step_SET_unknown a V s h, step_GET_unknown a s h]
    obtain ⟨h0, h1, h8, h9, h10, h11⟩ := h
    simp [h0, h1, h8, h9, h10, h11, STATUS_OK, STATUS_ERROR]

theorem status_characterisation_witness :
    ((step (GET 5) (power_on 0)).response.status ≠ STATUS_OK ∧
      ((step (GET 5) (power_on 0)).response = ⟨0, STATUS_ERROR⟩ ∧
        (step (GET 5) (power_on 0)).PORTB = (power_on 0).PORTB ∧
        (step (GET 5) (power_on 0)).clk_outputs = (power_on 0).clk_outputs ∧
        (step (GET 5) (power_on 0)).freq_corr = (power_on 0).freq_corr ∧
        (step (GET 5) (power_on 0)).calls = (power_on 0).calls)) ∧
    ((step (SET REG_CLK0_DRIVE 7) (power_on 0)).response.status ≠ STATUS_OK ∧
      ((step (SET REG_CLK0_DRIVE 7) (power_on 0)).response = ⟨0, STATUS_ERROR⟩ ∧
        (step (SET REG_CLK0_DRIVE 7) (power_on 0)).PORTB = (power_on 0).PORTB ∧
        (step (SET REG_CLK0_DRIVE 7) (power_on 0)).clk_outputs = (power_on 0).clk_outputs ∧
        (step (SET REG_CLK0_DRIVE 7) (power_on 0)).freq_corr = (power_on 0).freq_corr ∧
        (step (SET REG_CLK0_DRIVE 7) (power_on 0)).calls = (power_on 0).calls)) :=
  ⟨⟨by decide, (status_characterisation (power_on 0) 5 0).2.2.1 (by decide)⟩,
    ⟨by decide, (status_characterisation (power_on 0) REG_CLK0_DRIVE 7).2.2.2.1 (by decide)⟩⟩

/-- C12 (frame of a SET): for every state with in-range fields, every address and
every 16-bit value, a SET changes at most the register its address names.  The
port changes only for address 0, and then only in bit `PB5`; the correction only
for address 1; the low 16 bits of the channel-0 frequency only for address 8 and
its high 16 bits only for address 9; the enabled flag only for address 10; the
drive level only for address 11; the records of channels 1 and 2 never. -/
theorem set_frame (s : State) (a V : Nat) (hs : s.wf) (hV : V < 65536) :
    (a ≠ REG_LED → (step (SET a V) s).PORTB = s.PORTB) ∧
      (∀ i, i ≠ PB5 → (step (SET a V) s).PORTB.testBit i = s.PORTB.testBit i) ∧
      (a ≠ REG_FREQ_CORR → (step (SET a V) s).freq_corr = s.freq_corr) ∧
      (a ≠ REG_CLK0_FREQ_0 →
        (step (SET a V) s).clk_outputs.c0.frequency &&& 0xFFFF
          = s.clk_outputs.c0.frequency &&& 0xFFFF) ∧
      (a ≠ REG_CLK0_FREQ_1 →
        (step (SET a V) s).clk_outputs.c0.frequency >>> 16
          = s.clk_outputs.c0.frequency >>> 16) ∧
      (a ≠ REG_CLK0_FREQ_0 → a ≠ REG_CLK0_FREQ_1 →
        (step (SET a V) s).clk_outputs.c0.frequency = s.clk_outputs.c0.frequency) ∧
      (a ≠ REG_CLK0_ENABLE →
        (step (SET a V) s).clk_outputs.c0.enabled = s.clk_outputs.c0.enabled) ∧
      (a ≠ REG_CLK0_DRIVE →
        (step (SET a V) s).clk_outputs.c0.drive = s.clk_outputs.c0.drive) ∧
      (step (SET a V) s).clk_outputs.c1 = s.clk_outputs.c1 ∧
      (step (SET a V) s).clk_outputs.c2 = s.clk_outputs.c2 := by
  obtain ⟨hp, hf, _⟩ := hs
  obtain ⟨e1, e2, e3, e4, e5, e6, e7⟩ := step_SET_fields a V s
  refine ⟨?_, ?_, ?_, ?_, ?_, ?_, ?_, ?_, e5, e6⟩
  · intro h
    rw [e1, if_neg h]
  · intro i hi
    rw [e1]
    split_ifs
    · exact portb_other_bits_on hp hi
    · exact portb_other_bits_off hp hi
    · rfl
  · intro h
    rw [e7, if_neg h]
  · intro h
    rw [e2, if_neg h]
    split_ifs
    · exact low_bits_kept _ _
    · rfl
  · intro h
    rw [e2]
    split_ifs
    · exact high_bits_kept hf hV
    · rfl
  · intro h8 h9
    rw [e2, if_neg h8, if_neg h9]
  · intro h
    rw [e3, if_neg h]
  · intro h
    rw [e4]
    have h1 : ¬ (a = REG_CLK0_DRIVE ∧ V ≤ SI5351_DRIVE_8MA) := fun hh => h hh.1
    rw [if_neg h1]

theorem set_frame_witness :
    (main_startup (power_on 0)).wf ∧ 27200 < 65536 ∧
    ((REG_CLK0_FREQ_0 ≠ REG_LED →
        (step (SET REG_CLK0_FREQ_0 27200) (main_startup (power_on 0))).PORTB
          = (main_startup (power_on 0)).PORTB) ∧
      (∀ i, i ≠ PB5 →
        (step (SET REG_CLK0_FREQ_0 27200) (main_startup (power_on 0))).PORTB.testBit i
          = (main_startup (power_on 0)).PORTB.testBit i) ∧
      (REG_CLK0_FREQ_0 ≠ REG_FREQ_CORR →
        (step (SET REG_CLK0_FREQ_0 27200) (main_startup (power_on 0))).freq_corr
          = (main_startup (power_on 0)).freq_corr) ∧
      (REG_CLK0_FREQ_0 ≠ REG_CLK0_FREQ_0 →
        (step (SET REG_CLK0_FREQ_0 27200)
          (main_startup (power_on 0))).clk_outputs.c0.frequency &&& 0xFFFF
          = (main_startup (power_on 0)).clk_outputs.c0.frequency &&& 0xFFFF) ∧
      (REG_CLK0_FREQ_0 ≠ REG_CLK0_FREQ_1 →
        (step (SET REG_CLK0_FREQ_0 27200)
          (main_startup (power_on 0))).clk_outputs.c0.frequency >>> 16
          = (main_startup (power_on 0)).clk_outputs.c0.frequency >>> 16) ∧
      (REG_CLK0_FREQ_0 ≠ REG_CLK0_FREQ_0 → REG_CLK0_FREQ_0 ≠ REG_CLK0_FREQ_1 →
        (step (SET REG_CLK0_FREQ_0 27200) (main_startup (power_on 0))).clk_outputs.c0.frequency
          = (main_startup (power_on 0)).clk_outputs.c0.frequency) ∧
      (REG_CLK0_FREQ_0 ≠ REG_CLK0_ENABLE →
        (step (SET REG_CLK0_FREQ_0 27200) (main_startup (power_on 0))).clk_outputs.c0.enabled
          = (main_startup (power_on 0)).clk_outputs.c0.enabled) ∧
      (REG_CLK0_FREQ_0 ≠ REG_CLK0_DRIVE →
        (step (SET REG_CLK0_FREQ_0 27200) (main_startup (power_on 0))).clk_outputs.c0.drive
          = (main_startup (power_on 0)).clk_outputs.c0.drive) ∧
      (step (SET REG_CLK0_FREQ_0 27200) (main_startup (power_on 0))).clk_outputs.c1
        = (main_startup (power_on 0)).clk_outputs.c1 ∧
      (step (SET REG_CLK0_FREQ_0 27200) (main_startup (power_on 0))).clk_outputs.c2
        = (main_startup (power_on 0)).clk_outputs.c2) :=
  ⟨main_startup_wf 0 (by decide), by decide,
    set_frame (main_startup (power_on 0)) REG_CLK0_FREQ_0 27200
      (main_startup_wf 0 (by decide)) (by decide)⟩

/-- C14 (frequency read-back): for every state whose stored channel-0 frequency
`f` is below 2^32, `GET(8)` returns `{f mod 65536, STATUS_OK}` and `GET(9)`
returns `{f div 65536, STATUS_OK}`, so the two values recompose `f`; both halves
can be read. -/
theorem frequency_read_back (s : State) (hf : s.clk_outputs.c0.frequency < 2 ^ 32) :
    (step (GET REG_CLK0_FREQ_0) s).response
        = ⟨s.clk_outputs.c0.frequency % 65536, STATUS_OK⟩ ∧
      (step (GET REG_CLK0_FREQ_1) s).response
        = ⟨s.clk_outputs.c0.frequency / 65536, STATUS_OK⟩ ∧
      (step (GET REG_CLK0_FREQ_1) s).response.value * 65536
        + (step (GET REG_CLK0_FREQ_0) s).response.value = s.clk_outputs.c0.frequency := by
  have h8 : (step (GET REG_CLK0_FREQ_0) s).response
      = ⟨s.clk_outputs.c0.frequency % 65536, STATUS_OK⟩ := by
    rw [step_GET_response]
    simp only [REG_CLK0_FREQ_0, REG_LED, Nat.shiftRight_zero, low_mask_eq_mod]
    simp
  have h9 : (step (GET REG_CLK0_FREQ_1) s).response
      = ⟨s.clk_outputs.c0.frequency / 65536, STATUS_OK⟩ := by
    rw [step_GET_response]
    simp only [REG_CLK0_FREQ_0, REG_CLK0_FREQ_1, REG_LED, low_mask_eq_mod,
      Nat.shiftRight_eq_div_pow]
    simp
    omega
  refine ⟨h8, h9, ?_⟩
  rw [h8, h9]
  show s.clk_outputs.c0.frequency / 65536 * 65536 + s.clk_outputs.c0.frequency % 65536 = _
  omega

theorem frequency_read_back_witness :
    (step (SET REG_CLK0_FREQ_1 107) (power_on 0)).clk_outputs.c0.frequency < 2 ^ 32 ∧
    ((step (GET REG_CLK0_FREQ_0) (step (SET REG_CLK0_FREQ_1 107) (power_on 0))).response
        = ⟨(step (SET REG_CLK0_FREQ_1 107) (power_on 0)).clk_outputs.c0.frequency % 65536,
            STATUS_OK⟩ ∧
      (step (GET REG_CLK0_FREQ_1) (step (SET REG_CLK0_FREQ_1 107) (power_on 0))).response
        = ⟨(step (SET REG_CLK0_FREQ_1 107) (power_on 0)).clk_outputs.c0.frequency / 65536,
            STATUS_OK⟩ ∧
      (step (GET REG_CLK0_FREQ_1)
          (step (SET REG_CLK0_FREQ_1 107) (power_on 0))).response.value * 65536
        + (step (GET REG_CLK0_FREQ_0)
          (step (SET REG_CLK0_FREQ_1 107) (power_on 0))).response.value
        = (step (SET REG_CLK0_FREQ_1 107) (power_on 0)).clk_outputs.c0.frequency) :=
  ⟨by decide, frequency_read_back (step (SET REG_CLK0_FREQ_1 107) (power_on 0)) (by decide)⟩

/-- C15 (signed correction): for every 16-bit `V`, `SET(1, V)` stores the
two's-complement reading of `V` (`V` below 32768, `V - 65536` from there on) as
the correction, passes exactly that number to `si5351_set_correction`, and
returns `{V, STATUS_OK}`; the `GET(1)` that follows returns `{V, STATUS_OK}`. -/
theorem signed_correction (s : State) (V : Nat) (hV : V < 65536) :
    (step (SET REG_FREQ_CORR V) s).freq_corr
        = (if V < 32768 then (V : Int) else (V : Int) - 65536) ∧
      (step (SET REG_FREQ_CORR V) s).calls
        = s.calls ++
          [Call.si5351_set_correction (if V < 32768 then (V : Int) else (V : Int) - 65536),
           Call.uart_puts
            (line_correction (if V < 32768 then (V : Int) else (V : Int) - 65536))] ∧
      (step (SET REG_FREQ_CORR V) s).response = ⟨V, STATUS_OK⟩ ∧
      (step (GET REG_FREQ_CORR) (step (SET REG_FREQ_CORR V) s)).response
        = ⟨V, STATUS_OK⟩ := by
  have hi := to_int16_of_lt hV
  have hu := to_uint16_to_int16 hV
  refine ⟨?_, ?_, ?_, ?_⟩
  · rw [step_SET_corr]
    exact hi
  · rw [step_SET_corr]
    simp only [hi]
  · rw [step_SET_corr]
    simp only [hu]
  · rw [step_GET_response, step_SET_corr]
    simp [REG_LED, REG_FREQ_CORR, REG_CLK0_FREQ_0, REG_CLK0_FREQ_1, REG_CLK0_ENABLE,
      REG_CLK0_DRIVE, hu]

theorem signed_correction_witness :
    65000 < 65536 ∧
    ((step (SET REG_FREQ_CORR 65000) (power_on 0)).freq_corr
        = (if 65000 < 32768 then ((65000 : Nat) : Int) else ((65000 : Nat) : Int) - 65536) ∧
      (step (SET REG_FREQ_CORR 65000) (power_on 0)).calls
        = (power_on 0).calls ++
          [Call.si5351_set_correction
            (if 65000 < 32768 then ((65000 : Nat) : Int) else ((65000 : Nat) : Int) - 65536),
           Call.uart_puts
            (line_correction
              (if 65000 < 32768 then ((65000 : Nat) : Int)
               else ((65000 : Nat) : Int) - 65536))] ∧
      (step (SET REG_FREQ_CORR 65000) (power_on 0)).response = ⟨65000, STATUS_OK⟩ ∧
      (step (GET REG_FREQ_CORR) (step (SET REG_FREQ_CORR 65000) (power_on 0))).response
        = ⟨65000, STATUS_OK⟩) :=
  ⟨by decide, signed_correction (power_on 0) 65000 (by decide)⟩

/-- C16 (reachable states): in every state that any finite sequence of requests,
of any kinds, addresses and values, reaches from the state after start-up, the
stored channel-0 drive level is at most `SI5351_DRIVE_8MA`, which is 3, and the
stored enabled flag is 0 or 1; hence `GET(11)` returns a value of at most 3 and
`GET(10)` returns 0 or 1. -/
theorem reachable_drive_enable (portb : Nat) (rqs : List usbRequest_t) :
    (run rqs (main_startup (power_on portb))).clk_outputs.c0.drive ≤ SI5351_DRIVE_8MA ∧
      SI5351_DRIVE_8MA = 3 ∧
      ((run rqs (main_startup (power_on portb))).clk_outputs.c0.enabled = 0 ∨
        (run rqs (main_startup (power_on portb))).clk_outputs.c0.enabled = 1) ∧
      (step (GET REG_CLK0_DRIVE) (run rqs (main_startup (power_on portb)))).response.value
        ≤ 3 ∧
      ((step (GET REG_CLK0_ENABLE)
          (run rqs (main_startup (power_on portb)))).response.value = 0 ∨
        (step (GET REG_CLK0_ENABLE)
          (run rqs (main_startup (power_on portb)))).response.value = 1) := by
  obtain ⟨hd, he⟩ :=
    drive_enable_inv_run rqs (main_startup (power_on portb)) (drive_enable_inv_startup portb)
  refine ⟨hd, rfl, he, ?_, ?_⟩
  · rw [step_GET_response]
    simp only [REG_CLK0_DRIVE, REG_LED, REG_CLK0_FREQ_0, REG_CLK0_FREQ_1, REG_CLK0_ENABLE]
    exact hd
  · rw [step_GET_response]
    simp only [REG_LED, REG_CLK0_FREQ_0, REG_CLK0_FREQ_1, REG_CLK0_ENABLE]
    exact he

/-- C17 (response of a SET): for every 16-bit `V`, the response record of
`SET(addr, V)` is `{1 if V is nonzero else 0, STATUS_OK}` for the addresses 0 and
10, `{V, STATUS_OK}` for the addresses 1, 8 and 9 and for address 11 when `V` is
at most 3, and `{0, STATUS_ERROR}` otherwise; so any two states give the same
record for the same request. -/
theorem set_response_state_independent (s t : State) (a V : Nat) (hV : V < 65536) :
    (step (SET a V) s).response =
        (if a = 0 ∨ a = 10 then ⟨if V ≠ 0 then 1 else 0, STATUS_OK⟩
         else if a = 1 ∨ a = 8 ∨ a = 9 then ⟨V, STATUS_OK⟩
         else if a = 11 ∧ V ≤ 3 then ⟨V, STATUS_OK⟩
         else ⟨0, STATUS_ERROR⟩) ∧
      (step (SET a V) s).response = (step (SET a V) t).response := by
  have hu := to_uint16_to_int16 hV
  constructor
  · rw [step_SET_response]
    rcases address_cases a with rfl | rfl | rfl | rfl | rfl | rfl | h
    · by_cases hz : V = 0 <;> simp [REG_LED, notnot, hz]
    · simp [REG_LED, REG_FREQ_CORR, REG_CLK0_FREQ_0, REG_CLK0_FREQ_1, REG_CLK0_ENABLE,
        REG_CLK0_DRIVE, hu]
    · simp [REG_LED, REG_FREQ_CORR, REG_CLK0_FREQ_0, REG_CLK0_FREQ_1, REG_CLK0_ENABLE,
        REG_CLK0_DRIVE]
    · simp [REG_LED, REG_FREQ_CORR, REG_CLK0_FREQ_0, REG_CLK0_FREQ_1, REG_CLK0_ENABLE,
        REG_CLK0_DRIVE]
    · by_cases hz : V = 0 <;>
        simp [REG_LED, REG_FREQ_CORR, REG_CLK0_FREQ_0, REG_CLK0_FREQ_1, REG_CLK0_ENABLE,
          REG_CLK0_DRIVE, notnot, hz]
    · by_cases hd : V ≤ 3
      · have h1 : ¬ V > SI5351_DRIVE_8MA := Nat.not_lt.mpr hd
        simp [REG_LED, REG_FREQ_CORR, REG_CLK0_FREQ_0, REG_CLK0_FREQ_1, REG_CLK0_ENABLE,
          REG_CLK0_DRIVE, hd, h1]
      · have h1 : V > SI5351_DRIVE_8MA := Nat.not_le.mp hd
        simp [REG_LED, REG_FREQ_CORR, REG_CLK0_FREQ_0, REG_CLK0_FREQ_1, REG_CLK0_ENABLE,
          REG_CLK0_DRIVE, hd, h1]
    · obtain ⟨h0, h1, h8, h9, h10, h11⟩ := h
      simp only [REG_LED, REG_FREQ_CORR, REG_CLK0_FREQ_0, REG_CLK0_FREQ_1, REG_CLK0_ENABLE,
        REG_CLK0_DRIVE] at h0 h1 h8 h9 h10 h11
      simp [REG_LED, REG_FREQ_CORR, REG_CLK0_FREQ_0, REG_CLK0_FREQ_1, REG_CLK0_ENABLE,
        REG_CLK0_DRIVE, h0, h1, h8, h9, h10, h11]
  · rw [step_SET_response, step_SET_response]

theorem set_response_state_independent_witness :
    300 < 65536 ∧
    ((step (SET 10 300) (power_on 0)).response =
        (if 10 = 0 ∨ 10 = 10 then ⟨if 300 ≠ 0 then 1 else 0, STATUS_OK⟩
         else if 10 = 1 ∨ 10 = 8 ∨ 10 = 9 then ⟨300, STATUS_OK⟩
         else if 10 = 11 ∧ 300 ≤ 3 then ⟨300, STATUS_OK⟩
         else ⟨0, STATUS_ERROR⟩) ∧
      (step (SET 10 300) (power_on 0)).response
        = (step (SET 10 300) (step (SET 10 0) (main_startup (power_on 255)))).response) :=
  ⟨by decide,
    set_response_state_independent (power_on 0)
      (step (SET 10 0) (main_startup (power_on 255))) 10 300 (by decide)⟩

/-- C18 (idempotence of a SET): for every state, address and value, issuing the
same `SET(addr, V)` twice in a row leaves the same port, channel records,
correction, text buffer, response record and reply pointer as issuing it once;
the trace of the second request repeats the calls that the first one added, and
nothing else differs. -/
theorem set_idempotent (s : State) (a V : Nat) :
    (step (SET a V) (step (SET a V) s)).PORTB = (step (SET a V) s).PORTB ∧
      (step (SET a V) (step (SET a V) s)).clk_outputs = (step (SET a V) s).clk_outputs ∧
      (step (SET a V) (step (SET a V) s)).freq_corr = (step (SET a V) s).freq_corr ∧
      (step (SET a V) (step (SET a V) s)).response = (step (SET a V) s).response ∧
      (step (SET a V) (step (SET a V) s)).strbuf = (step (SET a V) s).strbuf ∧
      (step (SET a V) (step (SET a V) s)).usbMsgPtr = (step (SET a V) s).usbMsgPtr ∧
      (step (SET a V) (step (SET a V) s)).calls
        = (step (SET a V) s).calls ++ (step (SET a V) s).calls.drop s.calls.length := by
  rcases address_cases a with rfl | rfl | rfl | rfl | rfl | rfl | h
  · rw [step_SET_led, step_SET_led]
    by_cases hz : V = 0 <;> simp [hz, led_on_on, led_off_off]
  · rw [step_SET_corr, step_SET_corr]
    simp
  · rw [step_SET_freq0, step_SET_freq0]
    simp [low_twice]
  · rw [step_SET_freq1, step_SET_freq1]
    simp [high_twice]
  · rw [step_SET_enable, step_SET_enable]
    simp
  · by_cases hd : V ≤ SI5351_DRIVE_8MA
    · rw [step_SET_drive_ok V _ hd, step_SET_drive_ok V s hd]
      simp
    · rw [step_SET_drive_rejected V _ (Nat.not_le.mp hd),
        step_SET_drive_rejected V s (Nat.not_le.mp hd)]
      simp
  · rw [step_SET_unknown a V _ h, step_SET_unknown a V s h]
    simp

/-- C19 (commuting SETs): for every state, any two distinct addresses and any
16-bit values, `SET(a, V)` then `SET(b, W)` leaves the same port, channel records
and correction as `SET(b, W)` then `SET(a, V)`; in particular the frequency
halves written high-then-low store `(H << 16) | L`, the same as low-then-high. -/
theorem set_commute (s : State) (a b V W : Nat) (hab : a ≠ b)
    (hV : V < 65536) (hW : W < 65536) :
    (step (SET b W) (step (SET a V) s)).PORTB
        = (step (SET a V) (step (SET b W) s)).PORTB ∧
      (step (SET b W) (step (SET a V) s)).clk_outputs
        = (step (SET a V) (step (SET b W) s)).clk_outputs ∧
      (step (SET b W) (step (SET a V) s)).freq_corr
        = (step (SET a V) (step (SET b W) s)).freq_corr ∧
      (step (SET REG_CLK0_FREQ_0 W) (step (SET REG_CLK0_FREQ_1 V) s)).clk_outputs.c0.frequency
        = (V <<< 16) ||| W ∧
      (step (SET REG_CLK0_FREQ_1 V) (step (SET REG_CLK0_FREQ_0 W) s)).clk_outputs.c0.frequency
        = (V <<< 16) ||| W := by
  have hba : b ≠ a := fun h => hab h.symm
  obtain ⟨p1, _, n1, d1, x1, y1, c1⟩ := step_SET_fields b W (step (SET a V) s)
  obtain ⟨p2, _, n2, d2, x2, y2, c2⟩ := step_SET_fields a V s
  obtain ⟨p3, _, n3, d3, x3, y3, c3⟩ := step_SET_fields a V (step (SET b W) s)
  obtain ⟨p4, _, n4, d4, x4, y4, c4⟩ := step_SET_fields b W s
  refine ⟨?_, ?_, ?_, ?_, ?_⟩
  · rw [p1, p2, p3, p4]
    by_cases ha : a = REG_LED
    · have hb : ¬ b = REG_LED := fun h => hab (ha.trans h.symm)
      simp only [ha, hb, if_true, if_false]
    · simp only [ha, if_false]
  · apply clk_outputs_ext
    · apply clk_output_ext
      · exact frequency_commute s a b V W hab hV hW
      · rw [n1, n2, n3, n4]
        by_cases ha : a = REG_CLK0_ENABLE
        · have hb : ¬ b = REG_CLK0_ENABLE := fun h => hab (ha.trans h.symm)
          simp only [ha, hb, if_true, if_false]
        · simp only [ha, if_false]
      · rw [d1, d2, d3, d4]
        by_cases ha : a = REG_CLK0_DRIVE
        · have hb : ¬ b = REG_CLK0_DRIVE := fun h => hab (ha.trans h.symm)
          simp only [ha, hb, false_and, if_false]
        · simp only [ha, false_and, if_false]
    · rw [x1, x2, x3, x4]
    · rw [y1, y2, y3, y4]
  · rw [c1, c2, c3, c4]
    by_cases ha : a = REG_FREQ_CORR
    · have hb : ¬ b = REG_FREQ_CORR := fun h => hab (ha.trans h.symm)
      simp only [ha, hb, if_true, if_false]
    · simp only [ha, if_false]
  · rw [step_SET_freq0, step_SET_freq1]
    show (((s.clk_outputs.c0.frequency &&& 0x0000FFFF) ||| ((V <<< 16) % 2 ^ 32))
      &&& 0xFFFF0000) ||| ((W <<< 0) % 2 ^ 32) = _
    rw [shl0_u16 hW, shl16_u16 hV]
    exact compose_halves_rev _ hW hV
  · rw [step_SET_freq1, step_SET_freq0]
    show (((s.clk_outputs.c0.frequency &&& 0xFFFF0000) ||| ((W <<< 0) % 2 ^ 32))
      &&& 0x0000FFFF) ||| ((V <<< 16) % 2 ^ 32) = _
    rw [shl0_u16 hW, shl16_u16 hV]
    exact compose_halves _ hW

theorem set_commute_witness :
    9 ≠ 8 ∧ 107 < 65536 ∧ 27200 < 65536 ∧
    ((step (SET 8 27200) (step (SET 9 107) (power_on 0))).PORTB
        = (step (SET 9 107) (step (SET 8 27200) (power_on 0))).PORTB ∧
      (step (SET 8 27200) (step (SET 9 107) (power_on 0))).clk_outputs
        = (step (SET 9 107) (step (SET 8 27200) (power_on 0))).clk_outputs ∧
      (step (SET 8 27200) (step (SET 9 107) (power_on 0))).freq_corr
        = (step (SET 9 107) (step (SET 8 27200) (power_on 0))).freq_corr ∧
      (step (SET REG_CLK0_FREQ_0 27200)
          (step (SET REG_CLK0_FREQ_1 107) (power_on 0))).clk_outputs.c0.frequency
        = (107 <<< 16) ||| 27200 ∧
      (step (SET REG_CLK0_FREQ_1 107)
          (step (SET REG_CLK0_FREQ_0 27200) (power_on 0))).clk_outputs.c0.frequency
        = (107 <<< 16) ||| 27200) :=
  ⟨by decide, by decide, by decide,
    set_commute (power_on 0) 9 8 107 27200 (by decide) (by decide) (by decide)⟩

/-- C20, as stated, fails: after `SET(9, 107)`, the write `SET(8, 27200)` differs
from the current low half 0 and makes the stored frequency differ from the
committed one, yet the further write `SET(8, 0)` makes the stored frequency, and
what `GET(8)` and `GET(9)` report, equal to the last committed frequency
7012352 again, although address 9 has not been written since. -/
theorem stored_frequency_reconverges_counterexample :
    27200 ≠ (step (SET REG_CLK0_FREQ_1 107)
        (main_startup (power_on 0))).clk_outputs.c0.frequency &&& 0xFFFF ∧
    (step (SET REG_CLK0_FREQ_0 27200) (step (SET REG_CLK0_FREQ_1 107)
        (main_startup (power_on 0)))).clk_outputs.c0.frequency = 7039552 ∧
    last_set_freq (step (SET REG_CLK0_FREQ_0 27200) (step (SET REG_CLK0_FREQ_1 107)
        (main_startup (power_on 0)))).calls = some 7012352 ∧
    (step (SET REG_CLK0_FREQ_0 0) (step (SET REG_CLK0_FREQ_0 27200)
        (step (SET REG_CLK0_FREQ_1 107)
          (main_startup (power_on 0))))).clk_outputs.c0.frequency = 7012352 ∧
    last_set_freq (step (SET REG_CLK0_FREQ_0 0) (step (SET REG_CLK0_FREQ_0 27200)
        (step (SET REG_CLK0_FREQ_1 107) (main_startup (power_on 0))))).calls
      = some 7012352 ∧
    (step (GET REG_CLK0_FREQ_1) (step (SET REG_CLK0_FREQ_0 0)
        (step (SET REG_CLK0_FREQ_0 27200) (step (SET REG_CLK0_FREQ_1 107)
          (main_startup (power_on 0)))))).response.value * 65536
      + (step (GET REG_CLK0_FREQ_0) (step (SET REG_CLK0_FREQ_0 0)
        (step (SET REG_CLK0_FREQ_0 27200) (step (SET REG_CLK0_FREQ_1 107)
          (main_startup (power_on 0)))))).response.value = 7012352 := by
  decide

/-- C20, amended (stored against committed frequency): right after any
`SET(9, H)` the stored channel-0 frequency is the argument of the most recent
`si5351_set_freq` call.  A following `SET(8, L)` with 16-bit `L` other than the
current low 16 bits changes the stored frequency without adding any call, so the
frequency read back (`GET(8)` now returns `L`, `GET(9)` still returns `H`)
differs from the one last passed to the synthesizer.  It stays different through
every sequence of requests without a SET of address 8 or 9.  After such a
sequence the next `SET(9, H')` makes the two equal again, and a `SET(8, M)` with
16-bit `M` adds no call and makes them equal exactly when `M` is the low 16 bits
of the committed frequency. -/
theorem stored_frequency_diverges (s : State) (H L : Nat) (hH : H < 65536) (hL : L < 65536)
    (hne : L ≠ (step (SET REG_CLK0_FREQ_1 H) s).clk_outputs.c0.frequency &&& 0xFFFF) :
    last_set_freq (step (SET REG_CLK0_FREQ_1 H) s).calls
        = some (step (SET REG_CLK0_FREQ_1 H) s).clk_outputs.c0.frequency ∧
      (step (SET REG_CLK0_FREQ_0 L) (step (SET REG_CLK0_FREQ_1 H) s)).clk_outputs.c0.frequency
        ≠ (step (SET REG_CLK0_FREQ_1 H) s).clk_outputs.c0.frequency ∧
      (step (SET REG_CLK0_FREQ_0 L) (step (SET REG_CLK0_FREQ_1 H) s)).calls
        = (step (SET REG_CLK0_FREQ_1 H) s).calls ∧
      (step (GET REG_CLK0_FREQ_0)
          (step (SET REG_CLK0_FREQ_0 L) (step (SET REG_CLK0_FREQ_1 H) s))).response
        = ⟨L, STATUS_OK⟩ ∧
      (step (GET REG_CLK0_FREQ_1)
          (step (SET REG_CLK0_FREQ_0 L) (step (SET REG_CLK0_FREQ_1 H) s))).response
        = ⟨H, STATUS_OK⟩ ∧
      (step (GET REG_CLK0_FREQ_0)
          (step (SET REG_CLK0_FREQ_0 L) (step (SET REG_CLK0_FREQ_1 H) s))).response
        ≠ (step (GET REG_CLK0_FREQ_0) (step (SET REG_CLK0_FREQ_1 H) s)).response ∧
      (step (SET REG_CLK0_FREQ_0 L) (step (SET REG_CLK0_FREQ_1 H) s)).clk_outputs.c0.frequency
        = H * 65536 + L ∧
      last_set_freq (step (SET REG_CLK0_FREQ_0 L) (step (SET REG_CLK0_FREQ_1 H) s)).calls
        ≠ some (H * 65536 + L) ∧
      (∀ rqs : List usbRequest_t,
        (∀ rq ∈ rqs, ¬ (rq.bRequest = CTRL_SET_REGISTER ∧
            (rq.wIndex = REG_CLK0_FREQ_0 ∨ rq.wIndex = REG_CLK0_FREQ_1))) →
        (run rqs (step (SET REG_CLK0_FREQ_0 L)
            (step (SET REG_CLK0_FREQ_1 H) s))).clk_outputs.c0.frequency
          = H * 65536 + L ∧
        last_set_freq (run rqs (step (SET REG_CLK0_FREQ_0 L)
            (step (SET REG_CLK0_FREQ_1 H) s))).calls
          = some (step (SET REG_CLK0_FREQ_1 H) s).clk_outputs.c0.frequency ∧
        last_set_freq (run rqs (step (SET REG_CLK0_FREQ_0 L)
            (step (SET REG_CLK0_FREQ_1 H) s))).calls
          ≠ some (H * 65536 + L) ∧
        (step (GET REG_CLK0_FREQ_1) (run rqs (step (SET REG_CLK0_FREQ_0 L)
            (step (SET REG_CLK0_FREQ_1 H) s)))).response.value * 65536
          + (step (GET REG_CLK0_FREQ_0) (run rqs (step (SET REG_CLK0_FREQ_0 L)
            (step (SET REG_CLK0_FREQ_1 H) s)))).response.value
          = H * 65536 + L ∧
        (∀ H' : Nat,
          last_set_freq (step (SET REG_CLK0_FREQ_1 H') (run rqs
              (step (SET REG_CLK0_FREQ_0 L) (step (SET REG_CLK0_FREQ_1 H) s)))).calls
            = some (step (SET REG_CLK0_FREQ_1 H') (run rqs
              (step (SET REG_CLK0_FREQ_0 L)
                (step (SET REG_CLK0_FREQ_1 H) s)))).clk_outputs.c0.frequency) ∧
        (∀ M : Nat, M < 65536 →
          (step (SET REG_CLK0_FREQ_0 M) (run rqs (step (SET REG_CLK0_FREQ_0 L)
              (step (SET REG_CLK0_FREQ_1 H) s)))).calls
            = (run rqs (step (SET REG_CLK0_FREQ_0 L) (step (SET REG_CLK0_FREQ_1 H) s))).calls ∧
          (step (SET REG_CLK0_FREQ_0 M) (run rqs (step (SET REG_CLK0_FREQ_0 L)
              (step (SET REG_CLK0_FREQ_1 H) s)))).clk_outputs.c0.frequency
            = H * 65536 + M ∧
          (last_set_freq (step (SET REG_CLK0_FREQ_0 M) (run rqs
              (step (SET REG_CLK0_FREQ_0 L) (step (SET REG_CLK0_FREQ_1 H) s)))).calls
            = some (step (SET REG_CLK0_FREQ_0 M) (run rqs
              (step (SET REG_CLK0_FREQ_0 L)
                (step (SET REG_CLK0_FREQ_1 H) s)))).clk_outputs.c0.frequency
            ↔ M = (step (SET REG_CLK0_FREQ_1 H) s).clk_outputs.c0.frequency &&& 0xFFFF))) := by
  have c1 := committed_after_high s H
  have f1lt : (step (SET REG_CLK0_FREQ_1 H) s).clk_outputs.c0.frequency < 2 ^ 32 := by
    rw [step_SET_freq1]
    exact freq1_lt _ _
  have f1lo : (step (SET REG_CLK0_FREQ_1 H) s).clk_outputs.c0.frequency &&& 0xFFFF < 65536 := by
    rw [low_mask_eq_mod]
    omega
  have f1val : (step (SET REG_CLK0_FREQ_1 H) s).clk_outputs.c0.frequency
      = H * 65536 + ((step (SET REG_CLK0_FREQ_1 H) s).clk_outputs.c0.frequency &&& 0xFFFF) := by
    have e : (step (SET REG_CLK0_FREQ_1 H) s).clk_outputs.c0.frequency
        = (s.clk_outputs.c0.frequency &&& 0x0000FFFF) ||| ((H <<< 16) % 2 ^ 32) := by
      rw [step_SET_freq1]
    have hlo : s.clk_outputs.c0.frequency &&& 0xFFFF < 65536 := by
      rw [low_mask_eq_mod]
      omega
    rw [e, low_bits_kept, shl16_u16 hH, Nat.or_comm, or_halves_eq_add hlo, Nat.mul_comm]
  have f2 : (step (SET REG_CLK0_FREQ_0 L)
      (step (SET REG_CLK0_FREQ_1 H) s)).clk_outputs.c0.frequency
      = ((step (SET REG_CLK0_FREQ_1 H) s).clk_outputs.c0.frequency &&& 0xFFFF0000) ||| L := by
    rw [step_SET_freq0]
    show _ ||| ((L <<< 0) % 2 ^ 32) = _
    rw [shl0_u16 hL]
  have f2lo : (step (SET REG_CLK0_FREQ_0 L)
      (step (SET REG_CLK0_FREQ_1 H) s)).clk_outputs.c0.frequency &&& 0xFFFF = L := by
    rw [f2]
    exact low_after_write _ hL
  have f2val : (step (SET REG_CLK0_FREQ_0 L)
      (step (SET REG_CLK0_FREQ_1 H) s)).clk_outputs.c0.frequency = H * 65536 + L := by
    rw [f2, step_SET_freq1]
    show (((s.clk_outputs.c0.frequency &&& 0x0000FFFF) ||| ((H <<< 16) % 2 ^ 32))
      &&& 0xFFFF0000) ||| L = _
    rw [shl16_u16 hH, compose_halves_rev _ hL hH, or_halves_eq_add hL, Nat.mul_comm]
  have c2 : (step (SET REG_CLK0_FREQ_0 L) (step (SET REG_CLK0_FREQ_1 H) s)).calls
      = (step (SET REG_CLK0_FREQ_1 H) s).calls := by
    rw [step_SET_freq0]
  have hdiff : (step (SET REG_CLK0_FREQ_0 L)
      (step (SET REG_CLK0_FREQ_1 H) s)).clk_outputs.c0.frequency
      ≠ (step (SET REG_CLK0_FREQ_1 H) s).clk_outputs.c0.frequency := by
    intro he
    apply hne
    rw [← he, f2lo]
  have hlast : last_set_freq
      (step (SET REG_CLK0_FREQ_0 L) (step (SET REG_CLK0_FREQ_1 H) s)).calls
      ≠ some (H * 65536 + L) := by
    rw [c2, c1, ← f2val]
    intro he
    exact hdiff (Option.some.inj he).symm
  have f2lt : (step (SET REG_CLK0_FREQ_0 L)
      (step (SET REG_CLK0_FREQ_1 H) s)).clk_outputs.c0.frequency < 2 ^ 32 := by
    rw [f2val]
    omega
  obtain ⟨g8, g9⟩ := GET_freq_values _ f2lt
  obtain ⟨g8', _⟩ := GET_freq_values _ f1lt
  have m8 : (H * 65536 + L) % 65536 = L := by omega
  have m9 : (H * 65536 + L) / 65536 = H := by omega
  refine ⟨c1, hdiff, c2, ?_, ?_, ?_, f2val, hlast, ?_⟩
  · rw [g8, f2val, m8]
  · rw [g9, f2val, m9]
  · rw [g8, g8', f2val, m8]
    intro he
    apply hne
    have hv := congrArg response_t.value he
    rw [low_mask_eq_mod]
    exact hv
  · intro rqs hrqs
    obtain ⟨k1, k2⟩ := frequency_untouched_run rqs
      (step (SET REG_CLK0_FREQ_0 L) (step (SET REG_CLK0_FREQ_1 H) s)) hrqs
    have tval : (run rqs (step (SET REG_CLK0_FREQ_0 L)
        (step (SET REG_CLK0_FREQ_1 H) s))).clk_outputs.c0.frequency = H * 65536 + L := by
      rw [k1, f2val]
    have tlast : last_set_freq (run rqs (step (SET REG_CLK0_FREQ_0 L)
        (step (SET REG_CLK0_FREQ_1 H) s))).calls
        = some (step (SET REG_CLK0_FREQ_1 H) s).clk_outputs.c0.frequency := by
      rw [k2, c2, c1]
    have tlt : (run rqs (step (SET REG_CLK0_FREQ_0 L)
        (step (SET REG_CLK0_FREQ_1 H) s))).clk_outputs.c0.frequency < 2 ^ 32 := by
      rw [tval]
      omega
    obtain ⟨t8, t9⟩ := GET_freq_values _ tlt
    refine ⟨tval, tlast, ?_, ?_, ?_, ?_⟩
    · rw [k2]
      exact hlast
    · rw [t8, t9, tval]
      show (H * 65536 + L) / 65536 * 65536 + (H * 65536 + L) % 65536 = _
      omega
    · intro H'
      exact committed_after_high _ H'
    · intro M hM
      have mcalls : (step (SET REG_CLK0_FREQ_0 M) (run rqs (step (SET REG_CLK0_FREQ_0 L)
          (step (SET REG_CLK0_FREQ_1 H) s)))).calls
          = (run rqs (step (SET REG_CLK0_FREQ_0 L) (step (SET REG_CLK0_FREQ_1 H) s))).calls := by
        rw [step_SET_freq0]
      have mval : (step (SET REG_CLK0_FREQ_0 M) (run rqs (step (SET REG_CLK0_FREQ_0 L)
          (step (SET REG_CLK0_FREQ_1 H) s)))).clk_outputs.c0.frequency = H * 65536 + M := by
        rw [step_SET_freq0]
        show ((run rqs (step (SET REG_CLK0_FREQ_0 L)
          (step (SET REG_CLK0_FREQ_1 H) s))).clk_outputs.c0.frequency &&& 0xFFFF0000)
          ||| ((M <<< 0) % 2 ^ 32) = _
        rw [shl0_u16 hM, tval, Nat.mul_comm, ← or_halves_eq_add hL, low_rewrite hH hL,
          or_halves_eq_add hM]
      refine ⟨mcalls, mval, ?_⟩
      rw [mcalls, tlast, mval]
      constructor
      · intro he
        have he' := Option.some.inj he
        omega
      · intro he
        rw [← he] at f1val
        rw [f1val]

theorem stored_frequency_diverges_witness :
    107 < 65536 ∧ 27200 < 65536 ∧
    27200 ≠ (step (SET REG_CLK0_FREQ_1 107) (power_on 0)).clk_outputs.c0.frequency &&& 0xFFFF ∧
    (∀ rq ∈ [GET 8, SET 10 1, SET 11 2],
      ¬ (rq.bRequest = CTRL_SET_REGISTER ∧
          (rq.wIndex = REG_CLK0_FREQ_0 ∨ rq.wIndex = REG_CLK0_FREQ_1))) ∧
    0 < 65536 ∧
    (last_set_freq (step (SET REG_CLK0_FREQ_1 107) (power_on 0)).calls
        = some (step (SET REG_CLK0_FREQ_1 107) (power_on 0)).clk_outputs.c0.frequency ∧
      (step (SET REG_CLK0_FREQ_0 27200)
          (step (SET REG_CLK0_FREQ_1 107) (power_on 0))).clk_outputs.c0.frequency
        ≠ (step (SET REG_CLK0_FREQ_1 107) (power_on 0)).clk_outputs.c0.frequency ∧
      (step (SET REG_CLK0_FREQ_0 27200) (step (SET REG_CLK0_FREQ_1 107) (power_on 0))).calls
        = (step (SET REG_CLK0_FREQ_1 107) (power_on 0)).calls ∧
      (run [GET 8, SET 10 1, SET 11 2] (step (SET REG_CLK0_FREQ_0 27200)
          (step (SET REG_CLK0_FREQ_1 107) (power_on 0)))).clk_outputs.c0.frequency
        = 107 * 65536 + 27200 ∧
      (step (SET REG_CLK0_FREQ_0 0) (run [GET 8, SET 10 1, SET 11 2]
          (step (SET REG_CLK0_FREQ_0 27200)
            (step (SET REG_CLK0_FREQ_1 107) (power_on 0))))).clk_outputs.c0.frequency
        = 107 * 65536 + 0) :=
  ⟨by decide, by decide, by decide, by decide, by decide,
    (stored_frequency_diverges (power_on 0) 107 27200 (by decide) (by decide) (by decide)).1,
    (stored_frequency_diverges (power_on 0) 107 27200 (by decide) (by decide) (by decide)).2.1,
    (stored_frequency_diverges (power_on 0) 107 27200 (by decide) (by decide)
      (by decide)).2.2.1,
    ((stored_frequency_diverges (power_on 0) 107 27200 (by decide) (by decide)
      (by decide)).2.2.2.2.2.2.2.2 [GET 8, SET 10 1, SET 11 2] (by decide)).1,
    (((stored_frequency_diverges (power_on 0) 107 27200 (by decide) (by decide)
      (by decide)).2.2.2.2.2.2.2.2 [GET 8, SET 10 1, SET 11 2] (by decide)).2.2.2.2.2
        0 (by decide)).2.1⟩

end Beacon
